import Mathlib

/-!
Verification development for the QuadGNSS multi-constellation signal
simulator. The definitions below are a shallow embedding of the signal
synthesis engine: the LFSR code generators of the four constellations,
the orchestrator frequency-offset allocation and mixing, the digital NCO,
and the GPS L1 provider chunk generation. Machine doubles are modelled as
real numbers (rationals where the source only performs exact arithmetic),
int16/int32 arithmetic is modelled on the integers with explicit clamping
and wrapping, and fallible operations return an Except value.
-/

set_option maxRecDepth 8000

namespace QuadGNSS

/-- Saturating clamp of a 32-bit intermediate to the int16 range, as in
SignalOrchestrator.prevent_overflow and the per-satellite buffer adds of
the CDMA providers. -/
def clamp16 (x : ℤ) : ℤ := max (-32768) (min 32767 x)

/-- Truncation of an integer to 16 bits with wraparound, the effect of a
static_cast to int16_t on an out-of-range 32-bit value. -/
def wrap16 (x : ℤ) : ℤ := (x + 32768) % 65536 - 32768

/-- Truncation toward zero of a rational, the effect of a static_cast from
double to int on values that the source computes exactly. -/
def ratTrunc (q : ℚ) : ℤ := if 0 ≤ q then ⌊q⌋ else -⌊-q⌋

/-- Remainder with the sign behaviour of the C percent operator on int
(truncated division), for a positive divisor. -/
def cppIntRem (a b : ℤ) : ℤ := if 0 ≤ a then a % b else -((-a) % b)

/-! ### GPS L1 C/A code generator (GpsL1Provider in cdma_providers.cpp)

The registers are 10-bit naturals. One advance shifts the register right
by one and inserts the feedback bit at bit 9, exactly as in the source
loops of GpsL1Provider.generate_chunk. -/

/-- One advance of the G1 register: feedback is the xor of bits 2 and 9. -/
def g1Advance (s : ℕ) : ℕ :=
  ((((s >>> 2) ^^^ (s >>> 9)) &&& 1) <<< 9) ||| (s >>> 1)

/-- One advance of the G2 register: feedback is the xor of bits
2, 9, 8, 6, 3, 1 and 0, as written in the source. -/
def g2Advance (s : ℕ) : ℕ :=
  ((((s >>> 2) ^^^ (s >>> 9) ^^^ (s >>> 8) ^^^ (s >>> 6) ^^^ (s >>> 3) ^^^
      (s >>> 1) ^^^ (s >>> 0)) &&& 1) <<< 9) ||| (s >>> 1)

/-- The literal tap-delay table gps_tap_delays for PRN 1..37. -/
def gpsTapDelays : List (ℕ × ℕ) :=
  [(2, 6), (3, 7), (4, 8), (5, 9), (1, 9), (2, 10), (1, 8), (2, 9),
   (3, 10), (2, 3), (3, 4), (5, 6), (6, 7), (7, 8), (8, 9), (9, 10),
   (1, 4), (2, 5), (3, 6), (4, 7), (5, 8), (6, 9), (1, 3), (4, 6),
   (5, 7), (6, 8), (7, 9), (8, 10), (1, 6), (2, 7), (3, 8), (4, 9),
   (5, 10), (4, 10), (1, 7), (2, 8), (4, 10)]

/-- Second column of the tap table, used by the source as a shift count. -/
def gpsDelay (prn : ℕ) : ℕ := (gpsTapDelays.getD (prn - 1) (0, 0)).2

/-- Initial G2 register: all ones, pre-advanced by the PRN tap delay when
the PRN is in 1..37, as in the code-state initialisation of
GpsL1Provider.generate_chunk. -/
def gpsG2Init (prn : ℕ) : ℕ :=
  if 1 ≤ prn ∧ prn ≤ 37 then g2Advance^[gpsDelay prn] 1023 else 1023

/-- Gold chip emitted from the current register pair: bit 9 of G1 xor
bit 9 of a copy of G2 advanced by the PRN tap delay. -/
def gpsGoldChip (prn : ℕ) (st : ℕ × ℕ) : ℕ :=
  ((st.1 >>> 9) ^^^ ((g2Advance^[gpsDelay prn] st.2) >>> 9)) &&& 1

/-- Advance both registers by one chip. -/
def gpsAdvancePair (st : ℕ × ℕ) : ℕ × ℕ := (g1Advance st.1, g2Advance st.2)

/-- Chip number n of the sequence produced for a PRN: the gold chip of
the register pair after n advances from the initial seeds. -/
def gpsChipAt (prn n : ℕ) : ℕ :=
  gpsGoldChip prn (gpsAdvancePair^[n] (1023, gpsG2Init prn))

/-- One step of the balance fold: emit the chip of the current register
pair as plus one for a one bit and minus one for a zero bit, add it to the
running balance, and advance the registers. -/
def gpsBalStep (prn : ℕ) (st : (ℕ × ℕ) × ℤ) : (ℕ × ℕ) × ℤ :=
  (gpsAdvancePair st.1, st.2 + (if gpsGoldChip prn st.1 = 1 then 1 else -1))

/-- Balance of one nominal period: the count of one chips minus the count
of zero chips over the first 1023 chips of the sequence for a PRN. -/
def gpsBalance (prn : ℕ) : ℤ :=
  ((gpsBalStep prn)^[1023] ((1023, gpsG2Init prn), 0)).2

/-! ### Galileo E1 code generators (GalileoE1Provider in cdma_providers.cpp) -/

/-- One advance of the 12-bit Galileo primary register: feedback is the
xor of bits 0, 2, 3, 5, 6, 9, 10 and 11. -/
def galileoPrimaryAdvance (s : ℕ) : ℕ :=
  ((((s >>> 0) ^^^ (s >>> 2) ^^^ (s >>> 3) ^^^ (s >>> 5) ^^^ (s >>> 6) ^^^
      (s >>> 9) ^^^ (s >>> 10) ^^^ (s >>> 11)) &&& 1) <<< 11) ||| (s >>> 1)

/-- One advance of the 5-bit Galileo secondary register: feedback is the
xor of bits 2 and 4. -/
def galileoSecondaryAdvance (s : ℕ) : ℕ :=
  ((((s >>> 2) ^^^ (s >>> 4)) &&& 1) <<< 4) ||| (s >>> 1)

/-- PRN-derived seed of the primary register, from the code-state
initialisation of GalileoE1Provider.generate_chunk. -/
def galileoPrimarySeed (prn : ℕ) : ℕ := (2048 + ((prn * 13) &&& 4095)) &&& 4095

/-- PRN-derived seed of the secondary register. -/
def galileoSecondarySeed (prn : ℕ) : ℕ := (16 + ((prn * 3) &&& 31)) &&& 31

/-! ### BeiDou B1I code generators (BeidouB1Provider in cdma_providers.cpp) -/

/-- One advance of the first 11-bit BeiDou register: feedback is the xor
of bits 2, 5, 8, 9 and 10. -/
def beidou1Advance (s : ℕ) : ℕ :=
  ((((s >>> 2) ^^^ (s >>> 5) ^^^ (s >>> 8) ^^^ (s >>> 9) ^^^
      (s >>> 10)) &&& 1) <<< 10) ||| (s >>> 1)

/-- One advance of the second 11-bit BeiDou register: feedback is the xor
of bits 3, 4, 7, 8, 9 and 10. -/
def beidou2Advance (s : ℕ) : ℕ :=
  ((((s >>> 3) ^^^ (s >>> 4) ^^^ (s >>> 7) ^^^ (s >>> 8) ^^^ (s >>> 9) ^^^
      (s >>> 10)) &&& 1) <<< 10) ||| (s >>> 1)

/-- PRN-derived seed of the first BeiDou register. -/
def beidou1Seed (prn : ℕ) : ℕ := (1024 + (prn &&& 1023)) &&& 2047

/-- PRN-derived seed of the second BeiDou register. -/
def beidou2Seed (prn : ℕ) : ℕ := (1536 + ((prn * 7) &&& 1023)) &&& 2047

/-! ### GLONASS code generator (generate_glonass_code in constellation/glonass.c)

The 9-bit register starts from all ones; the output is bit 0; the feedback,
taken from bits 8 and 7 as written in the source, is shifted in at bit 8. -/

/-- One advance of the GLONASS register. -/
def glonassAdvance (s : ℕ) : ℕ :=
  (s >>> 1) ||| ((((s >>> 8) ^^^ (s >>> 7)) &&& 1) <<< 8)

/-- Register contents after n advances from the all-ones seed. -/
def glonassState (n : ℕ) : ℕ := glonassAdvance^[n] 511

/-- Chip value number n of the generated code: the source stores minus one
for an output bit of one and plus one otherwise. -/
def glonassChipVal (n : ℕ) : ℤ := if glonassState n &&& 1 = 1 then -1 else 1

/-! ### Orchestrator frequency-offset allocation
(SignalOrchestrator.calculate_frequency_offsets in quad_gnss_test.cpp) -/

/-- GPS L1 carrier frequency in hertz. -/
def gpsCarrierHz : ℚ := 1575420000

/-- GLONASS L1 centre carrier frequency in hertz. -/
def glonassCarrierHz : ℚ := 1602000000

/-- Galileo E1 carrier frequency in hertz. -/
def galileoCarrierHz : ℚ := 1575420000

/-- BeiDou B1I carrier frequency in hertz. -/
def beidouCarrierHz : ℚ := 1561098000

/-- First pass of calculate_frequency_offsets: the running minimum over
providers of carrier minus centre, started at zero. -/
def minOffsetFold (carriers : List ℚ) (center : ℚ) : ℚ :=
  carriers.foldl (fun m c => min m (c - center)) 0

/-- Second pass of calculate_frequency_offsets: every provider receives
carrier minus centre minus the running minimum. -/
def calculateFrequencyOffsets (carriers : List ℚ) (center : ℚ) : List ℚ :=
  carriers.map (fun c => c - center - minOffsetFold carriers center)

/-- Gate of the final NCO mix of the CDMA generate_chunk bodies: the mix
runs only when the absolute frequency offset exceeds one hertz. -/
def mixApplied (offsetHz : ℚ) : Bool := decide (1 < |offsetHz|)

/-! ### Orchestrator initialisation and mixing (quad_gnss_test.cpp) -/

/-- Errors raised by the embedded engine. -/
inductive OrchError
  | configInvalid
  | invalidParams
  | notReady
  | ephemerisLoad
  deriving DecidableEq

/-- Calls the orchestrator makes on one provider during initialisation. -/
inductive ProviderCall
  | loadEph
  | config
  deriving DecidableEq

/-- Per-provider call sequence of SignalOrchestrator.initialize: inside
the loop, load_ephemeris is invoked when a path is present for the
constellation of the provider, and configure is invoked afterwards. -/
def perProviderCalls (hasPath : Bool) : List ProviderCall :=
  (if hasPath then [ProviderCall.loadEph] else []) ++ [ProviderCall.config]

/-- Modelled from the spec wording of the claim, for comparison only: the
claim states that configure is called first and load_ephemeris second. -/
def claimPerProviderCalls (hasPath : Bool) : List ProviderCall :=
  ProviderCall.config :: (if hasPath then [ProviderCall.loadEph] else [])

/-- SignalOrchestrator.validate_configuration: positive sample rate,
positive centre frequency, non-empty active constellation set (the set is
abstracted by its cardinality). -/
def validateConfiguration (samplingRate centerFreq : ℚ)
    (activeConstellations : ℕ) : Bool :=
  decide (0 < samplingRate) && decide (0 < centerFreq) &&
    decide (activeConstellations ≠ 0)

/-- SignalOrchestrator.initialize, observed through the per-provider call
sequences it issues: configuration is validated (throwing on failure),
frequency offsets are computed, then the provider loop runs. Each
provider is abstracted by whether an ephemeris path is present for it. -/
def orchestratorInitialize (samplingRate centerFreq : ℚ)
    (activeConstellations : ℕ) (hasPaths : List Bool) :
    Except OrchError (List (List ProviderCall)) :=
  if validateConfiguration samplingRate centerFreq activeConstellations then
    Except.ok (hasPaths.map perProviderCalls)
  else Except.error OrchError.configInvalid

/-- A provider as seen by the orchestrator mixing loop: a readiness flag
and the chunk of int16 samples it emits for a sample count and time. -/
structure MProvider where
  ready : Bool
  chunk : ℕ → ℚ → List (ℤ × ℤ)

/-- Accumulation loop of mix_all_signals: a 32-bit accumulator starts at
zero, each ready provider chunk is added elementwise, and the accumulator
is clamped to the int16 range at the end (prevent_overflow followed by
the in-range cast back to int16). -/
def mixAccumulate (providers : List MProvider) (n : ℕ) (t : ℚ) :
    List (ℤ × ℤ) :=
  (providers.foldl
    (fun acc p =>
      if p.ready then
        List.zipWith (fun a s => (a.1 + s.1, a.2 + s.2)) acc (p.chunk n t)
      else acc)
    (List.replicate n ((0 : ℤ), (0 : ℤ)))).map
    (fun a => (clamp16 a.1, clamp16 a.2))

/-- SignalOrchestrator.mix_all_signals: the call throws when the
orchestrator is not initialised, the output buffer is null, or the sample
count is not positive; otherwise it returns the mixed chunk. -/
def mixAllSignals (initialized : Bool) (providers : List MProvider)
    (bufferPresent : Bool) (sampleCount : ℤ) (t : ℚ) :
    Except OrchError (List (ℤ × ℤ)) :=
  if ¬ initialized = true ∨ ¬ bufferPresent = true ∨ sampleCount ≤ 0 then
    Except.error OrchError.invalidParams
  else Except.ok (mixAccumulate providers sampleCount.toNat t)

/-! ### GLONASS per-channel summation
(GlonassL1Provider.avx2_sum_channels in glonass_provider.cpp)

The source computes a 32-bit sum of the int16 satellite buffers, then
writes max(min_val, min(max_val, static_cast to int16 of the sum)): the
cast happens before the clamp, so the clamp operates on an already 16-bit
value. -/

/-- Embedded avx2_sum_channels. The function returns the output buffer
unchanged when there are no satellite buffers. -/
def avx2SumChannels (buffers : List (List (ℤ × ℤ))) (sampleCount : ℕ)
    (output : List (ℤ × ℤ)) : List (ℤ × ℤ) :=
  if buffers.isEmpty then output
  else
    (List.range sampleCount).map (fun i =>
      let sumReal := (buffers.map (fun b => (b.getD i (0, 0)).1)).sum
      let sumImag := (buffers.map (fun b => (b.getD i (0, 0)).2)).sum
      (clamp16 (wrap16 sumReal), clamp16 (wrap16 sumImag)))

/-! ### Digital NCO (DigitalNCO in cdma_providers.cpp) -/

/-- Truncation toward zero of a real, the effect of a static_cast from
double to an integer type on in-range values. -/
noncomputable def ctrunc (x : ℝ) : ℤ := if 0 ≤ x then ⌊x⌋ else -⌊-x⌋

/-- The C fmod function on reals: remainder with the sign of the
dividend. -/
noncomputable def fmodReal (x y : ℝ) : ℝ := x - y * (ctrunc (x / y) : ℝ)

/-- Lookup-table size of the NCO. -/
def LUT_SIZE : ℕ := 16384

/-- State of DigitalNCO: sample rate and frequency as stored, phase and
phase increment in radians. -/
structure NCO where
  sampleRate : ℚ
  freq : ℚ
  phase : ℝ
  phaseInc : ℝ

/-- DigitalNCO constructor: zero frequency, phase and increment. -/
noncomputable def ncoInit (sampleRate : ℚ) : NCO := ⟨sampleRate, 0, 0, 0⟩

/-- DigitalNCO set_frequency: store the frequency and set the increment
to two pi times frequency over sample rate. -/
noncomputable def ncoSetFrequency (n : NCO) (f : ℚ) : NCO :=
  { n with freq := f, phaseInc := 2 * Real.pi * (f : ℝ) / (n.sampleRate : ℝ) }

/-- DigitalNCO reset_phase. -/
noncomputable def ncoResetPhase (n : NCO) : NCO := { n with phase := 0 }

/-- Table index emitted for the current phase: the phase scaled to table
units, cast to an integer, reduced mod the table size. -/
noncomputable def ncoEmit (n : NCO) : ℤ :=
  ctrunc (n.phase * (LUT_SIZE : ℝ) / (2 * Real.pi)) % (LUT_SIZE : ℤ)

/-- One sample of DigitalNCO generate_samples: emit the table index for
the current phase, then advance the phase, subtracting a full turn when
it reaches two pi. -/
noncomputable def ncoStep (n : NCO) : NCO × ℤ :=
  let idx := ncoEmit n
  let p := n.phase + n.phaseInc
  ({ n with phase := if 2 * Real.pi ≤ p then p - 2 * Real.pi else p }, idx)

/-- DigitalNCO generate_samples, returning the emitted table indices. -/
noncomputable def ncoGenerate : NCO → ℕ → NCO × List ℤ
  | n, 0 => (n, [])
  | n, k + 1 =>
    let s := ncoStep n
    let r := ncoGenerate s.1 k
    (r.1, s.2 :: r.2)

/-- Operations of the NCO interface. -/
inductive NCOOp
  | setFrequency (f : ℚ)
  | resetPhase
  | generate (k : ℕ)

/-- Run a sequence of NCO operations, collecting all emitted indices. -/
noncomputable def ncoRun : NCO → List NCOOp → NCO × List ℤ
  | n, [] => (n, [])
  | n, op :: ops =>
    let s := match op with
      | NCOOp.setFrequency f => (ncoSetFrequency n f, ([] : List ℤ))
      | NCOOp.resetPhase => (ncoResetPhase n, [])
      | NCOOp.generate k => ncoGenerate n k
    let r := ncoRun s.1 ops
    (r.1, s.2 ++ r.2)

/-- Frequencies admissible for the amended phase invariant: nonnegative
and below the sample rate. -/
def validNCOOp (sampleRate : ℚ) : NCOOp → Prop
  | NCOOp.setFrequency f => 0 ≤ f ∧ f < sampleRate
  | _ => True

/-- Invariant of the NCO state: phase and increment lie in the interval
from zero (inclusive) to two pi (exclusive). -/
def NCOInv (n : NCO) : Prop :=
  0 ≤ n.phase ∧ n.phase < 2 * Real.pi ∧
    0 ≤ n.phaseInc ∧ n.phaseInc < 2 * Real.pi

/-- Value stored in the NCO lookup table at an index. -/
noncomputable def lutEntry (i : ℤ) : ℝ × ℝ :=
  (Real.cos (2 * Real.pi * (i : ℝ) / (LUT_SIZE : ℝ)),
   Real.sin (2 * Real.pi * (i : ℝ) / (LUT_SIZE : ℝ)))

/-- DigitalNCO mix_signal: multiply each int16 sample by the generated
carrier, scale by one half, and cast back to int16 (the cast is modelled
as truncation; the engine keeps the products within the int16 range). -/
noncomputable def ncoMixSignal : NCO → List (ℤ × ℤ) → NCO × List (ℤ × ℤ)
  | n, [] => (n, [])
  | n, s :: rest =>
    let st := ncoStep n
    let c := lutEntry st.2
    let re := (s.1 : ℝ) * c.1 - (s.2 : ℝ) * c.2
    let im := (s.1 : ℝ) * c.2 + (s.2 : ℝ) * c.1
    let r := ncoMixSignal st.1 rest
    (r.1, (ctrunc (re * (1 / 2)), ctrunc (im * (1 / 2))) :: r.2)

/-! ### GPS L1 provider (GpsL1Provider in cdma_providers.cpp)

The provider state carries the flags and configuration of
CDMAProviderBase, the satellite list, and the per-PRN code-state map
(std::map is modelled as a function from PRN to an optional state). Times
and frequencies the source holds in doubles with exact values are
rationals; phases, Doppler and the trigonometric signal path are reals. -/

/-- Default sampling rate of GlobalConfig. -/
def DEFAULT_SAMPLING_RATE : ℚ := 60000000

/-- GPS L1 chip rate in hertz. -/
def GPS_CHIP_RATE : ℚ := 1023000

/-- GPS L1 carrier frequency in hertz. -/
def GPS_CARRIER_FREQ : ℚ := 1575420000

/-- Ephemeris record fields used by the satellite position computation. -/
structure EphemerisData where
  isValid : Bool
  sqrtA : ℚ
  e : ℚ
  i0 : ℚ
  omega0 : ℚ
  m0 : ℚ
  deltaN : ℚ
  omegaDot : ℚ
  idot : ℚ
  cuc : ℚ
  cus : ℚ
  crc : ℚ
  crs : ℚ
  cic : ℚ
  cis : ℚ
  toe : ℚ

/-- Default-constructed EphemerisData: invalid, all parameters zero. -/
def ephemerisDefault : EphemerisData :=
  ⟨false, 0, 0, 0, 0, 0, 0, 0, 0, 0, 0, 0, 0, 0, 0, 0⟩

/-- Result of the satellite position computation. -/
structure SatPos where
  x : ℝ
  y : ℝ
  z : ℝ
  rng : ℝ
  doppler : ℝ

/-- CDMAProviderBase.calculate_satellite_position: simplified Keplerian
propagation with ten fixed-point iterations for the eccentric anomaly and
the simplified Doppler estimate. -/
noncomputable def calculateSatellitePosition (eph : EphemerisData)
    (timeSec : ℚ) : SatPos :=
  if eph.isValid = false then ⟨0, 0, 0, 0, 0⟩
  else
    let mu : ℝ := 398600500000000
    let omegaE : ℝ := 7.2921151467e-5
    let dt : ℝ := (timeSec : ℝ) - (eph.toe : ℝ)
    let a : ℝ := (eph.sqrtA : ℝ) * (eph.sqrtA : ℝ)
    let n : ℝ := Real.sqrt (mu / (a * a * a)) + (eph.deltaN : ℝ)
    let M : ℝ := (eph.m0 : ℝ) + n * dt
    let E : ℝ := (fun x => M + (eph.e : ℝ) * Real.sin x)^[10] M
    let nu : ℝ := 2 * Real.arctan
      (Real.sqrt ((1 + (eph.e : ℝ)) / (1 - (eph.e : ℝ))) * Real.tan (E / 2))
    let r : ℝ := a * (1 - (eph.e : ℝ) * Real.cos E)
    let u : ℝ := nu + (eph.cuc : ℝ) * Real.cos (2 * nu) +
      (eph.cus : ℝ) * Real.sin (2 * nu)
    let rCorr : ℝ := r + (eph.crc : ℝ) * Real.cos (2 * nu) +
      (eph.crs : ℝ) * Real.sin (2 * nu)
    let iCorr : ℝ := (eph.i0 : ℝ) + (eph.idot : ℝ) * dt +
      (eph.cic : ℝ) * Real.cos (2 * nu) + (eph.cis : ℝ) * Real.sin (2 * nu)
    let omegaCorr : ℝ := (eph.omega0 : ℝ) + ((eph.omegaDot : ℝ) - omegaE) * dt
    let x : ℝ := rCorr * (Real.cos u * Real.cos omegaCorr -
      Real.sin u * Real.cos iCorr * Real.sin omegaCorr)
    let y : ℝ := rCorr * (Real.cos u * Real.sin omegaCorr +
      Real.sin u * Real.cos iCorr * Real.cos omegaCorr)
    let z : ℝ := rCorr * Real.sin u * Real.sin iCorr
    let vRel : ℝ := Real.sqrt (mu / (a * a * a)) * (eph.sqrtA : ℝ) *
      (eph.e : ℝ) * Real.sin nu
    ⟨x, y, z, Real.sqrt (x * x + y * y + z * z),
      -vRel * 1575420000 / 299792458⟩

/-- Per-PRN GPSCodeState: the two registers and the chip counter. -/
structure GpsChipState where
  g1 : ℕ
  g2 : ℕ
  chipCount : ℤ
  deriving DecidableEq

/-- Code state created on first use for a PRN: all-ones registers with
the G2 register pre-advanced by the PRN tap delay. -/
def gpsInitCodeState (prn : ℕ) : GpsChipState := ⟨1023, gpsG2Init prn, 0⟩

/-- SatelliteConfig of CDMAProviderBase. -/
structure GpsSat where
  prn : ℕ
  dopplerHz : ℝ
  powerDbm : ℚ
  codePhaseChips : ℤ
  carrierPhaseRad : ℝ
  isActive : Bool
  ephemeris : EphemerisData

/-- State of GpsL1Provider. -/
structure GpsProviderState where
  configured : Bool
  ephemerisLoaded : Bool
  frequencyOffsetHz : ℚ
  samplingRateHz : ℚ
  nco : NCO
  sats : List GpsSat
  codeStates : ℕ → Option GpsChipState

/-- Map update for the per-PRN code-state map. -/
def insertCode (prn : ℕ) (st : GpsChipState)
    (cm : ℕ → Option GpsChipState) : ℕ → Option GpsChipState :=
  fun q => if q = prn then some st else cm q

/-- One sample of the per-satellite loop of GpsL1Provider.generate_chunk:
compute the chip index from the absolute sample time, advance the
registers and latch a fresh gold chip when the index changed, then emit
the BPSK sample chip times cos(2 pi (carrier + doppler) t + phase) times
1000, cast to int16 (the product is always within the int16 range). The
loop state is the code state paired with the latched code_phase_chips. -/
noncomputable def gpsSampleStep (d : ℕ) (dop phi : ℝ)
    (st : GpsChipState × ℤ) (t : ℚ) : (GpsChipState × ℤ) × ℤ :=
  let ci : ℤ := cppIntRem (ratTrunc (t * GPS_CHIP_RATE)) 1023
  let next : GpsChipState × ℤ :=
    if ci ≠ st.1.chipCount then
      let gold : ℤ :=
        (((st.1.g1 >>> 9) ^^^ ((g2Advance^[d] st.1.g2) >>> 9)) &&& 1 : ℕ)
      (⟨g1Advance st.1.g1, g2Advance st.1.g2, ci⟩, gold)
    else st
  let chip : ℤ := if next.2 = 1 then 1 else -1
  let carrier : ℝ :=
    Real.cos (2 * Real.pi * ((GPS_CARRIER_FREQ : ℝ) + dop) * (t : ℝ) + phi)
  (next, ctrunc ((chip : ℝ) * carrier * 1000))

/-- The per-satellite sample loop over a list of sample times. -/
noncomputable def gpsSatLoop (d : ℕ) (dop phi : ℝ) :
    GpsChipState × ℤ → List ℚ → (GpsChipState × ℤ) × List ℤ
  | st, [] => (st, [])
  | st, t :: ts =>
    let s := gpsSampleStep d dop phi st t
    let r := gpsSatLoop d dop phi s.1 ts
    (r.1, s.2 :: r.2)

/-- Absolute sample times of a chunk: start time plus index over sample
rate. -/
def satTimes (fs t0 : ℚ) (n : ℕ) : List ℚ :=
  (List.range n).map (fun i : ℕ => t0 + (i : ℚ) / fs)

/-- Code-state map after the create-when-absent step for a PRN. -/
def gpsCm1 (prn : ℕ) (cm : ℕ → Option GpsChipState) : ℕ → Option GpsChipState :=
  match cm prn with
  | some _ => cm
  | none => insertCode prn (gpsInitCodeState prn) cm

/-- Doppler used for a chunk: computed from the ephemeris when valid,
otherwise the stored value is kept. -/
noncomputable def gpsDop (sat : GpsSat) (t0 : ℚ) : ℝ :=
  if sat.ephemeris.isValid = true then
    (calculateSatellitePosition sat.ephemeris t0).doppler
  else sat.dopplerHz

/-- Per-sample accumulation into the chunk buffer: each BPSK sample (the
Q component is zero) is added with int16 saturation. -/
def bufferAdd (buf : List (ℤ × ℤ)) (samples : List ℤ) : List (ℤ × ℤ) :=
  List.zipWith
    (fun (b : ℤ × ℤ) (s : ℤ) => (clamp16 (b.1 + s), clamp16 (b.2 + 0)))
    buf samples

/-- End-of-chunk carrier-phase update: advance by one chunk of carrier
cycles and reduce by fmod two pi. -/
noncomputable def gpsPhiNext (phi dop : ℝ) (n : ℕ) (fs : ℚ) : ℝ :=
  fmodReal
    (phi + 2 * Real.pi * ((GPS_CARRIER_FREQ : ℝ) + dop) * (n : ℝ) / (fs : ℝ))
    (2 * Real.pi)

/-- Processing of one satellite inside generate_chunk: create its code
state when absent, update its Doppler from the ephemeris when valid, run
the sample loop, add the samples into the buffer with int16 saturation,
and advance the carrier phase by one chunk. -/
noncomputable def gpsProcessOneSat (fs : ℚ) (n : ℕ) (t0 : ℚ) (sat : GpsSat)
    (buf : List (ℤ × ℤ)) (cm : ℕ → Option GpsChipState) :
    GpsSat × List (ℤ × ℤ) × (ℕ → Option GpsChipState) :=
  let cm1 := gpsCm1 sat.prn cm
  let st0 := (cm1 sat.prn).getD (gpsInitCodeState sat.prn)
  let dop : ℝ := gpsDop sat t0
  let r := gpsSatLoop (gpsDelay sat.prn) dop sat.carrierPhaseRad
    (st0, sat.codePhaseChips) (satTimes fs t0 n)
  ({ sat with
      dopplerHz := dop
      codePhaseChips := r.1.2
      carrierPhaseRad := gpsPhiNext sat.carrierPhaseRad dop n fs },
    bufferAdd buf r.2, insertCode sat.prn r.1.1 cm1)

/-- The satellite loop of generate_chunk: every active satellite is
processed in list order against the shared buffer and code-state map. -/
noncomputable def gpsProcessSats (fs : ℚ) (n : ℕ) (t0 : ℚ) :
    List GpsSat → List (ℤ × ℤ) → (ℕ → Option GpsChipState) →
      List GpsSat × List (ℤ × ℤ) × (ℕ → Option GpsChipState)
  | [], buf, cm => ([], buf, cm)
  | sat :: rest, buf, cm =>
    if sat.isActive = true then
      let one := gpsProcessOneSat fs n t0 sat buf cm
      let r := gpsProcessSats fs n t0 rest one.2.1 one.2.2
      (one.1 :: r.1, r.2.1, r.2.2)
    else
      let r := gpsProcessSats fs n t0 rest buf cm
      (sat :: r.1, r.2.1, r.2.2)

/-- CDMAProviderBase.is_ready: configured, ephemeris loaded, and a
non-empty satellite list. -/
def gpsIsReady (st : GpsProviderState) : Bool :=
  st.configured && st.ephemerisLoaded && !st.sats.isEmpty

/-- GpsL1Provider.generate_chunk: throw NotReady when not ready, zero the
buffer, process every active satellite, and mix with the provider NCO
only when the absolute frequency offset exceeds one hertz. -/
noncomputable def gpsGenerateChunk (st : GpsProviderState) (n : ℕ) (t0 : ℚ) :
    Except OrchError (List (ℤ × ℤ) × GpsProviderState) :=
  if gpsIsReady st = true then
    let r := gpsProcessSats st.samplingRateHz n t0 st.sats
      (List.replicate n ((0 : ℤ), (0 : ℤ))) st.codeStates
    let st1 : GpsProviderState := { st with sats := r.1, codeStates := r.2.2 }
    if mixApplied st.frequencyOffsetHz = true then
      let m := ncoMixSignal st1.nco r.2.1
      Except.ok (m.2, { st1 with nco := m.1 })
    else Except.ok (r.2.1, st1)
  else Except.error OrchError.notReady

/-- Samples of a generate_chunk result; an error produced no samples. -/
noncomputable def chunkSamples
    (r : Except OrchError (List (ℤ × ℤ) × GpsProviderState)) :
    List (ℤ × ℤ) :=
  match r with
  | Except.ok p => p.1
  | Except.error _ => []

/-- Provider state after a generate_chunk result; an exception leaves the
state unchanged. -/
noncomputable def chunkNext (dflt : GpsProviderState)
    (r : Except OrchError (List (ℤ × ℤ) × GpsProviderState)) :
    GpsProviderState :=
  match r with
  | Except.ok p => p.2
  | Except.error _ => dflt

/-- Configuration data passed to configure. -/
structure GpsConfig where
  samplingRateHz : ℚ

/-- Default satellite list built by initialize_default_satellites:
PRN 1..32, the first eight active. -/
noncomputable def gpsDefaultSats : List GpsSat :=
  (List.range 32).map (fun k =>
    { prn := k + 1
      dopplerHz := 0
      powerDbm := -130
      codePhaseChips := 0
      carrierPhaseRad := 0
      isActive := decide (k + 1 ≤ 8)
      ephemeris := ephemerisDefault })

/-- CDMAProviderBase.configure: store the configuration, rebuild the
default satellite list, and mark the provider configured. -/
noncomputable def gpsConfigure (st : GpsProviderState) (cfg : GpsConfig) :
    GpsProviderState :=
  { st with
    samplingRateHz := cfg.samplingRateHz
    sats := gpsDefaultSats
    configured := true }

/-- GpsL1Provider.load_ephemeris, with the parsed RINEX content supplied
(none models a parse failure, which raises EphemerisLoad and leaves the
state unchanged): attach ephemerides to matching satellites by PRN and
mark the ephemeris loaded. -/
noncomputable def gpsLoadEphemeris (st : GpsProviderState)
    (parsed : Option (List (ℕ × EphemerisData))) :
    Except OrchError GpsProviderState :=
  match parsed with
  | none => Except.error OrchError.ephemerisLoad
  | some m =>
    Except.ok { st with
      ephemerisLoaded := true
      sats := st.sats.map (fun sat =>
        match List.lookup sat.prn m with
        | some e => { sat with ephemeris := e }
        | none => sat) }

/-- CDMAProviderBase.set_frequency_offset: store the offset and set the
NCO frequency. -/
noncomputable def gpsSetFrequencyOffset (st : GpsProviderState)
    (offsetHz : ℚ) : GpsProviderState :=
  { st with
    frequencyOffsetHz := offsetHz
    nco := ncoSetFrequency st.nco offsetHz }

/-- Operations of the provider interface. -/
inductive GpsOp
  | configure (cfg : GpsConfig)
  | loadEphemeris (parsed : Option (List (ℕ × EphemerisData)))
  | setFrequencyOffset (offsetHz : ℚ)
  | generateChunk (n : ℕ) (t0 : ℚ)

/-- Freshly constructed provider: unconfigured, no ephemeris, zero
offset, default sampling rate, NCO at the default rate, no satellites. -/
noncomputable def gpsInitialState : GpsProviderState :=
  { configured := false
    ephemerisLoaded := false
    frequencyOffsetHz := 0
    samplingRateHz := DEFAULT_SAMPLING_RATE
    nco := ncoInit DEFAULT_SAMPLING_RATE
    sats := []
    codeStates := fun _ => none }

/-- Apply one operation; a thrown exception leaves the state unchanged
(both throwing paths throw before any mutation). -/
noncomputable def gpsApplyOp (st : GpsProviderState) : GpsOp → GpsProviderState
  | GpsOp.configure cfg => gpsConfigure st cfg
  | GpsOp.loadEphemeris p =>
    match gpsLoadEphemeris st p with
    | Except.ok s => s
    | Except.error _ => st
  | GpsOp.setFrequencyOffset o => gpsSetFrequencyOffset st o
  | GpsOp.generateChunk n t0 =>
    match gpsGenerateChunk st n t0 with
    | Except.ok r => r.2
    | Except.error _ => st

/-- Run an operation sequence from the freshly constructed provider. -/
noncomputable def gpsRun (ops : List GpsOp) : GpsProviderState :=
  ops.foldl gpsApplyOp gpsInitialState

/-- Reachability invariant of the provider state: the satellite list is
nonempty exactly when the provider is configured, and a nonempty list
contains an active satellite. -/
def GpsInv (st : GpsProviderState) : Prop :=
  (st.configured = true ↔ st.sats ≠ []) ∧
    (st.sats ≠ [] → ∃ sat ∈ st.sats, sat.isActive = true)

/-- A single active satellite with PRN 1, no Doppler, zero phases and no
valid ephemeris, as after configuration. -/
noncomputable def satA : GpsSat :=
  ⟨1, 0, -130, 0, 0, true, ephemerisDefault⟩

/-- A ready provider holding only satA, zero frequency offset, sampled at
exactly the carrier frequency (one carrier cycle per sample). -/
noncomputable def providerA : GpsProviderState :=
  ⟨true, true, 0, GPS_CARRIER_FREQ, ncoInit DEFAULT_SAMPLING_RATE, [satA],
    fun _ => none⟩

/-- A ready provider holding only satA, zero frequency offset, sampled at
twice the carrier frequency (half a carrier cycle per sample). -/
noncomputable def providerB : GpsProviderState :=
  ⟨true, true, 0, 3150840000, ncoInit DEFAULT_SAMPLING_RATE, [satA],
    fun _ => none⟩

/-- Provider state after one 1-sample chunk of providerB: the carrier
phase advanced to pi and the PRN 1 code state created. -/
noncomputable def satB1 : GpsSat :=
  ⟨1, 0, -130, 0, Real.pi, true, ephemerisDefault⟩

noncomputable def providerB1 : GpsProviderState :=
  ⟨true, true, 0, 3150840000, ncoInit DEFAULT_SAMPLING_RATE, [satB1],
    insertCode 1 (gpsInitCodeState 1)
      (insertCode 1 (gpsInitCodeState 1) (fun _ => none))⟩

/-! ## Helper lemmas -/

/-- Chain two iterate evaluations. -/
theorem iterChain {α : Type} (f : α → α) {a b : ℕ} {x y z : α}
    (h1 : f^[a] x = y) (h2 : f^[b] y = z) : f^[b + a] x = z := by
  rw [Function.iterate_add_apply, h1, h2]

/-- A bounded universal statement follows from its chunked form. -/
theorem ballOfChunks {P : ℕ → Prop} (c m : ℕ)
    (h : ∀ j, j < m → ∀ i, i < c → P (c * j + i)) :
    ∀ s, s < c * m → P s := by
  intro s hs
  rcases Nat.eq_zero_or_pos c with hc | hc
  · subst hc; simp at hs
  · have hj : s / c < m := Nat.div_lt_of_lt_mul hs
    have := h (s / c) hj (s % c) (Nat.mod_lt _ hc)
    rwa [Nat.div_add_mod] at this

/-- Iterating a step that preserves a bounded invariant preserves it for
any number of steps. -/
theorem iterateInvariant {adv : ℕ → ℕ} {bound : ℕ} {P : ℕ → Prop}
    (hstep : ∀ s, s < bound → P s → adv s < bound ∧ P (adv s))
    {s0 : ℕ} (h0 : s0 < bound) (h1 : P s0) (n : ℕ) :
    adv^[n] s0 < bound ∧ P (adv^[n] s0) := by
  induction n with
  | zero => simpa using And.intro h0 h1
  | succ k ih => rw [Function.iterate_succ_apply']; exact hstep _ ih.1 ih.2

/-- A natural with a nonzero masked part is nonzero. -/
theorem neZeroOfMask {s m : ℕ} (h : s &&& m ≠ 0) : s ≠ 0 := by
  intro hs; subst hs; simp at h

/-! Step preservation of the nonzero invariants, each checked by a
finite chunked case analysis over the full register state space. -/

theorem g1Advance_step :
    ∀ s, s < 1024 → s &&& 1020 ≠ 0 →
      g1Advance s < 1024 ∧ g1Advance s &&& 1020 ≠ 0 := by
  have h : ∀ j, j < 16 → ∀ i, i < 64 →
      (64 * j + i) &&& 1020 ≠ 0 →
        g1Advance (64 * j + i) < 1024 ∧ g1Advance (64 * j + i) &&& 1020 ≠ 0 := by
    decide
  exact ballOfChunks 64 16 h

theorem g2Advance_step :
    ∀ s, s < 1024 → s ≠ 0 → g2Advance s < 1024 ∧ g2Advance s ≠ 0 := by
  have h : ∀ j, j < 16 → ∀ i, i < 64 →
      64 * j + i ≠ 0 →
        g2Advance (64 * j + i) < 1024 ∧ g2Advance (64 * j + i) ≠ 0 := by
    decide
  exact ballOfChunks 64 16 h

theorem galileoPrimaryAdvance_step :
    ∀ s, s < 4096 → s ≠ 0 →
      galileoPrimaryAdvance s < 4096 ∧ galileoPrimaryAdvance s ≠ 0 := by
  have h : ∀ j, j < 64 → ∀ i, i < 64 →
      64 * j + i ≠ 0 →
        galileoPrimaryAdvance (64 * j + i) < 4096 ∧
          galileoPrimaryAdvance (64 * j + i) ≠ 0 := by
    decide
  exact ballOfChunks 64 64 h

theorem beidou1Advance_step :
    ∀ s, s < 2048 → s &&& 2044 ≠ 0 →
      beidou1Advance s < 2048 ∧ beidou1Advance s &&& 2044 ≠ 0 := by
  have h : ∀ j, j < 32 → ∀ i, i < 64 →
      (64 * j + i) &&& 2044 ≠ 0 →
        beidou1Advance (64 * j + i) < 2048 ∧
          beidou1Advance (64 * j + i) &&& 2044 ≠ 0 := by
    decide
  exact ballOfChunks 64 32 h

theorem beidou2Advance_step :
    ∀ s, s < 2048 → s &&& 2040 ≠ 0 →
      beidou2Advance s < 2048 ∧ beidou2Advance s &&& 2040 ≠ 0 := by
  have h : ∀ j, j < 32 → ∀ i, i < 64 →
      (64 * j + i) &&& 2040 ≠ 0 →
        beidou2Advance (64 * j + i) < 2048 ∧
          beidou2Advance (64 * j + i) &&& 2040 ≠ 0 := by
    decide
  exact ballOfChunks 64 32 h

theorem glonassAdvance_step :
    ∀ s, s < 512 → s &&& 384 ≠ 0 →
      glonassAdvance s < 512 ∧ glonassAdvance s &&& 384 ≠ 0 := by
  have h : ∀ j, j < 8 → ∀ i, i < 64 →
      (64 * j + i) &&& 384 ≠ 0 →
        glonassAdvance (64 * j + i) < 512 ∧
          glonassAdvance (64 * j + i) &&& 384 ≠ 0 := by
    decide
  exact ballOfChunks 64 8 h

/-! Chunked evaluations of the GPS register iteration for PRN 1. -/

theorem gpsG2Init_one : gpsG2Init 1 = 1023 := by decide

theorem gpsPairIter1023 :
    gpsAdvancePair^[1023] (1023, 1023) = (205, 1023) := by
  have c1 : gpsAdvancePair^[93] (1023, 1023) = (120, 1023) := by decide
  have c2 : gpsAdvancePair^[93] (120, 1023) = (992, 1023) := by decide
  have c3 : gpsAdvancePair^[93] (992, 1023) = (964, 1023) := by decide
  have c4 : gpsAdvancePair^[93] (964, 1023) = (769, 1023) := by decide
  have c5 : gpsAdvancePair^[93] (769, 1023) = (546, 1023) := by decide
  have c6 : gpsAdvancePair^[93] (546, 1023) = (8, 1023) := by decide
  have c7 : gpsAdvancePair^[93] (8, 1023) = (275, 1023) := by decide
  have c8 : gpsAdvancePair^[93] (275, 1023) = (64, 1023) := by decide
  have c9 : gpsAdvancePair^[93] (64, 1023) = (153, 1023) := by decide
  have c10 : gpsAdvancePair^[93] (153, 1023) = (518, 1023) := by decide
  have c11 : gpsAdvancePair^[93] (518, 1023) = (205, 1023) := by decide
  exact iterChain _ (iterChain _ (iterChain _ (iterChain _ (iterChain _
    (iterChain _ (iterChain _ (iterChain _ (iterChain _ (iterChain _
      c1 c2) c3) c4) c5) c6) c7) c8) c9) c10) c11

theorem gpsBalIter1023 :
    (gpsBalStep 1)^[1023] ((1023, 1023), 0) = ((205, 1023), 175) := by
  have c1 : (gpsBalStep 1)^[93] ((1023, 1023), 0) = ((120, 1023), 13) := by decide
  have c2 : (gpsBalStep 1)^[93] ((120, 1023), 13) = ((992, 1023), 36) := by decide
  have c3 : (gpsBalStep 1)^[93] ((992, 1023), 36) = ((964, 1023), 45) := by decide
  have c4 : (gpsBalStep 1)^[93] ((964, 1023), 45) = ((769, 1023), 72) := by decide
  have c5 : (gpsBalStep 1)^[93] ((769, 1023), 72) = ((546, 1023), 81) := by decide
  have c6 : (gpsBalStep 1)^[93] ((546, 1023), 81) = ((8, 1023), 104) := by decide
  have c7 : (gpsBalStep 1)^[93] ((8, 1023), 104) = ((275, 1023), 111) := by decide
  have c8 : (gpsBalStep 1)^[93] ((275, 1023), 111) = ((64, 1023), 134) := by decide
  have c9 : (gpsBalStep 1)^[93] ((64, 1023), 134) = ((153, 1023), 143) := by decide
  have c10 : (gpsBalStep 1)^[93] ((153, 1023), 143) = ((518, 1023), 166) := by decide
  have c11 : (gpsBalStep 1)^[93] ((518, 1023), 166) = ((205, 1023), 175) := by decide
  exact iterChain _ (iterChain _ (iterChain _ (iterChain _ (iterChain _
    (iterChain _ (iterChain _ (iterChain _ (iterChain _ (iterChain _
      c1 c2) c3) c4) c5) c6) c7) c8) c9) c10) c11

/-! Chunked evaluation of the GLONASS register iteration. -/

theorem glonassIter511 : glonassAdvance^[511] 511 = 219 := by
  have c1 : glonassAdvance^[73] 511 = 219 := by decide
  have c2 : glonassAdvance^[73] 219 = 365 := by decide
  have c3 : glonassAdvance^[73] 365 = 438 := by decide
  have c4 : glonassAdvance^[73] 438 = 219 := by decide
  exact iterChain _ (iterChain _ (iterChain _ (iterChain _ (iterChain _
    (iterChain _ c1 c2) c3) c4) c2) c3) c4

/-! ## Claim theorems -/

/-- C3: the claim states that for every GPS PRN the chip sequence has
exact period 1023 with balance plus or minus one. Evaluating the embedded
generator of GpsL1Provider.generate_chunk at PRN 1 refutes this: chip 0
is 0 while chip 1023 is 1, so 1023 is not a period at all, and the balance
over the first 1023 chips is 175. This contradicts the sources own claim
of a 1023-chip sequence (and the sibling C implementation in
constellation/gps.c, which produces the standard code), so the code is at
fault. -/
theorem gps_gold_code_eval :
    gpsChipAt 1 0 = 0 ∧ gpsChipAt 1 1023 = 1 ∧ gpsBalance 1 = 175 := by
  refine ⟨by decide, ?_, ?_⟩
  · show gpsGoldChip 1 (gpsAdvancePair^[1023] (1023, gpsG2Init 1)) = 1
    rw [gpsG2Init_one, gpsPairIter1023]
    decide
  · show ((gpsBalStep 1)^[1023] ((1023, gpsG2Init 1), 0)).2 = 175
    rw [gpsG2Init_one, gpsBalIter1023]

/-- C6: the claim states that the GLONASS 511-chip code has exact period
511. Evaluating the embedded generator of generate_glonass_code refutes
this: the register does not return to the all-ones seed after 511
advances (it reaches 219), and the register stream is eventually periodic
with period 3 (state 514 equals state 511). Moreover the provider
GlonassChannelGenerator.generate_signal never invokes this code at all:
its baseband is a placeholder square wave, as its own TODO comments
record. The code, not the claim, is at fault. -/
theorem glonass_code_eval :
    glonassState 0 = 511 ∧ glonassState 511 = 219 ∧ glonassState 511 ≠ glonassState 0 ∧
      glonassState 514 = glonassState 511 := by
  have h511 : glonassState 511 = 219 := glonassIter511
  have h514 : glonassState 514 = 219 := by
    have c3 : glonassAdvance^[3] 219 = 219 := by decide
    exact iterChain _ glonassIter511 c3
  refine ⟨by decide, h511, ?_, ?_⟩
  · rw [h511]; decide
  · rw [h511, h514]

/-- C8 counterexample: the Galileo secondary register seed derived for
PRN 16 is zero, so the register is zero already at the first chip
advance, refuting the claim that every LFSR register is nonzero at every
chip advance for every PRN. -/
theorem galileo_secondary_seed_zero :
    galileoSecondarySeed 16 = 0 ∧
      galileoSecondaryAdvance^[0] (galileoSecondarySeed 16) = 0 := by decide

/-- C8 amended: the nonzero invariant does hold, at every chip advance,
for the GPS G1 and G2 registers, both BeiDou registers (PRN 1..37), the
GLONASS register and the Galileo primary register (PRN 1..36); only the
Galileo secondary register violates it (see the counterexample). -/
theorem lfsr_registers_nonzero (n prn : ℕ) (h1 : 1 ≤ prn) (h37 : prn ≤ 37) :
    g1Advance^[n] 1023 ≠ 0 ∧
    g2Advance^[n] (gpsG2Init prn) ≠ 0 ∧
    beidou1Advance^[n] (beidou1Seed prn) ≠ 0 ∧
    beidou2Advance^[n] (beidou2Seed prn) ≠ 0 ∧
    glonassAdvance^[n] 511 ≠ 0 ∧
    (prn ≤ 36 → galileoPrimaryAdvance^[n] (galileoPrimarySeed prn) ≠ 0) := by
  refine ⟨?_, ?_, ?_, ?_, ?_, ?_⟩
  · exact neZeroOfMask (iterateInvariant g1Advance_step (by decide) (by decide) n).2
  · rw [gpsG2Init, if_pos (And.intro h1 h37),
      ← Function.iterate_add_apply g2Advance n (gpsDelay prn) 1023]
    exact (iterateInvariant g2Advance_step (by decide) (by decide) (n + gpsDelay prn)).2
  · have hseed : beidou1Seed prn < 2048 ∧ beidou1Seed prn &&& 2044 ≠ 0 := by
      have h : ∀ p, p < 38 → beidou1Seed p < 2048 ∧ beidou1Seed p &&& 2044 ≠ 0 := by decide
      exact h prn (by omega)
    exact neZeroOfMask (iterateInvariant beidou1Advance_step hseed.1 hseed.2 n).2
  · have hseed : beidou2Seed prn < 2048 ∧ beidou2Seed prn &&& 2040 ≠ 0 := by
      have h : ∀ p, p < 38 → beidou2Seed p < 2048 ∧ beidou2Seed p &&& 2040 ≠ 0 := by decide
      exact h prn (by omega)
    exact neZeroOfMask (iterateInvariant beidou2Advance_step hseed.1 hseed.2 n).2
  · exact neZeroOfMask (iterateInvariant glonassAdvance_step (by decide) (by decide) n).2
  · intro h36
    have hseed : galileoPrimarySeed prn < 4096 ∧ galileoPrimarySeed prn ≠ 0 := by
      have h : ∀ p, p < 37 → galileoPrimarySeed p < 4096 ∧ galileoPrimarySeed p ≠ 0 := by decide
      exact h prn (by omega)
    exact (iterateInvariant galileoPrimaryAdvance_step hseed.1 hseed.2 n).2

/-- C8 witness: the amended invariant instantiated at five advances of
the PRN 1 registers. -/
theorem lfsr_registers_nonzero_witness :
    g1Advance^[5] 1023 ≠ 0 ∧ g2Advance^[5] (gpsG2Init 1) ≠ 0 ∧
      galileoPrimaryAdvance^[5] (galileoPrimarySeed 1) ≠ 0 := by
  have h := lfsr_registers_nonzero 5 1 (by decide) (by decide)
  exact ⟨h.1, h.2.1, h.2.2.2.2.2 (by decide)⟩

/-- C1: the claim states that every accumulation clamps the 32-bit sum at
the int16 bounds. In GlonassL1Provider.avx2_sum_channels the sum is cast
to int16 before the clamp, so the clamp is vacuous and out-of-range sums
wrap: summing two channel samples of 20000 yields -25536 where saturation
would yield 32767. This contradicts the sources own comment (clamp to
int16 range to prevent overflow), so the code is at fault. -/
theorem avx2_sum_wraps :
    avx2SumChannels [[(20000, 0)], [(20000, 0)]] 1 [(0, 0)] = [(-25536, 0)] ∧
      clamp16 (20000 + 20000) = 32767 ∧ ((-25536 : ℤ)) ≠ 32767 := by decide

/-! Frequency-offset fold lemmas. -/

theorem minFold_le_init (center : ℚ) :
    ∀ (l : List ℚ) (a : ℚ), List.foldl (fun m c => min m (c - center)) a l ≤ a := by
  intro l
  induction l with
  | nil => intro a; simp
  | cons c l ih =>
    intro a
    calc List.foldl (fun m c => min m (c - center)) (min a (c - center)) l
        ≤ min a (c - center) := ih _
      _ ≤ a := min_le_left _ _

theorem minFold_le_mem (center : ℚ) :
    ∀ (l : List ℚ) (a c : ℚ), c ∈ l →
      List.foldl (fun m c => min m (c - center)) a l ≤ c - center := by
  intro l
  induction l with
  | nil => intro a c h; simp at h
  | cons c0 l ih =>
    intro a c h
    rcases List.mem_cons.mp h with h | h
    · subst h
      calc List.foldl (fun m c => min m (c - center)) (min a (c - center)) l
          ≤ min a (c - center) := minFold_le_init center l _
        _ ≤ c - center := min_le_right _ _
    · exact ih _ c h

/-- C5 counterexample: with a single GPS provider and the default centre
frequency of 1582 MHz, the computed offset is 0 Hz, not the claimed
carrier minus centre, which is -6.58 MHz: calculate_frequency_offsets
subtracts the running minimum offset. -/
theorem offsets_counterexample :
    calculateFrequencyOffsets [gpsCarrierHz] 1582000000 = [0] ∧
    gpsCarrierHz - 1582000000 = -6580000 ∧
    calculateFrequencyOffsets [gpsCarrierHz] 1582000000 ≠
      [gpsCarrierHz - 1582000000] := by
  refine ⟨?_, by norm_num [gpsCarrierHz], ?_⟩
  · norm_num [calculateFrequencyOffsets, minOffsetFold, gpsCarrierHz, min_def]
  · norm_num [calculateFrequencyOffsets, minOffsetFold, gpsCarrierHz, min_def]

/-- C5 amended: every offset equals carrier minus centre minus the
running minimum of the first pass (which is at most zero and bounds every
carrier minus centre from below); in particular, with all four standard
providers and the centre at the BeiDou carrier of 1561.098 MHz, the
offsets are nonnegative, the BeiDou offset is exactly 0 Hz, and the
generate_chunk mix gate is closed for it. -/
theorem frequency_offsets_amended (carriers : List ℚ) (center : ℚ) :
    (∀ i : ℕ, (calculateFrequencyOffsets carriers center).get? i =
      (carriers.get? i).map
        (fun c => c - center - minOffsetFold carriers center)) ∧
    minOffsetFold carriers center ≤ 0 ∧
    (∀ c ∈ carriers, minOffsetFold carriers center ≤ c - center) ∧
    calculateFrequencyOffsets
        [gpsCarrierHz, glonassCarrierHz, galileoCarrierHz, beidouCarrierHz]
        beidouCarrierHz = [14322000, 40902000, 14322000, 0] ∧
    mixApplied 0 = false := by
  refine ⟨?_, minFold_le_init center carriers 0,
    fun c hc => minFold_le_mem center carriers 0 c hc, ?_, ?_⟩
  · intro i
    simp [calculateFrequencyOffsets]
  · norm_num [calculateFrequencyOffsets, minOffsetFold, gpsCarrierHz,
      glonassCarrierHz, galileoCarrierHz, beidouCarrierHz, min_def]
  · norm_num [mixApplied]

/-- C5 witness: the amended statement instantiated at the single-GPS
configuration, with the membership bound discharged at the GPS carrier. -/
theorem frequency_offsets_amended_witness :
    minOffsetFold [gpsCarrierHz] 1582000000 ≤ 0 ∧
      minOffsetFold [gpsCarrierHz] 1582000000 ≤ gpsCarrierHz - 1582000000 := by
  have h := frequency_offsets_amended [gpsCarrierHz] 1582000000
  exact ⟨h.2.1, h.2.2.1 gpsCarrierHz (by simp)⟩

/-- C7 counterexample: for a provider with an ephemeris path present,
initialize issues load_ephemeris first and configure second, not the
claimed configure first. -/
theorem initialize_order_counterexample :
    perProviderCalls true = [ProviderCall.loadEph, ProviderCall.config] ∧
    claimPerProviderCalls true = [ProviderCall.config, ProviderCall.loadEph] ∧
    perProviderCalls true ≠ claimPerProviderCalls true := by decide

/-- C7 amended: initialize validates the configuration first, raising the
configuration error exactly when the sample rate or centre frequency is
not positive or the active set is empty, and otherwise issues, for every
provider, load_ephemeris first (when a path is present) and configure
second. -/
theorem initialize_amended (fs cf : ℚ) (n : ℕ) (hasPaths : List Bool) :
    (validateConfiguration fs cf n = true ↔ 0 < fs ∧ 0 < cf ∧ n ≠ 0) ∧
    (validateConfiguration fs cf n = false →
      orchestratorInitialize fs cf n hasPaths =
        Except.error OrchError.configInvalid) ∧
    (validateConfiguration fs cf n = true →
      orchestratorInitialize fs cf n hasPaths =
        Except.ok (hasPaths.map perProviderCalls)) ∧
    perProviderCalls true = [ProviderCall.loadEph, ProviderCall.config] ∧
    perProviderCalls false = [ProviderCall.config] := by
  refine ⟨?_, ?_, ?_, by decide, by decide⟩
  · simp [validateConfiguration, and_assoc]
  · intro h
    simp [orchestratorInitialize, h]
  · intro h
    simp [orchestratorInitialize, h]

/-- C7 witness: the amended statement instantiated at a valid and an
invalid configuration. -/
theorem initialize_amended_witness :
    orchestratorInitialize 60000000 1582000000 1 [true] =
      Except.ok [[ProviderCall.loadEph, ProviderCall.config]] ∧
    orchestratorInitialize 0 1582000000 1 [true] =
      Except.error OrchError.configInvalid := by
  constructor
  · have h := (initialize_amended 60000000 1582000000 1 [true]).2.2.1
      (by norm_num [validateConfiguration])
    simpa [perProviderCalls] using h
  · exact (initialize_amended 0 1582000000 1 [true]).2.1
      (by norm_num [validateConfiguration])

/-- C10: mix_all_signals raises its parameter error whenever the output
buffer is null or the requested sample count is not positive, even for a
fully initialised orchestrator with every provider ready, and no chunk is
returned; conversely a chunk is returned only when the buffer is present
and the count positive. -/
theorem mix_all_rejects_invalid_parameters (providers : List MProvider)
    (t : ℚ) (bufferPresent : Bool) (sampleCount : ℤ)
    (h : bufferPresent = false ∨ sampleCount ≤ 0) :
    mixAllSignals true providers bufferPresent sampleCount t =
      Except.error OrchError.invalidParams ∧
    (∀ out, mixAllSignals true providers bufferPresent sampleCount t ≠
      Except.ok out) := by
  have hcond : (¬ (true : Bool) = true ∨ ¬ bufferPresent = true ∨
      sampleCount ≤ 0) := by
    rcases h with h | h
    · subst h; simp
    · exact Or.inr (Or.inr h)
  have herr : mixAllSignals true providers bufferPresent sampleCount t =
      Except.error OrchError.invalidParams := by
    unfold mixAllSignals
    rw [if_pos hcond]
  refine ⟨herr, fun out => ?_⟩
  rw [herr]
  simp

/-- C10 witness: the rejection instantiated at a null buffer and at a
zero sample count. -/
theorem mix_all_rejects_invalid_parameters_witness :
    mixAllSignals true [] false 5 0 = Except.error OrchError.invalidParams ∧
    mixAllSignals true [] true 0 0 = Except.error OrchError.invalidParams := by
  refine ⟨?_, ?_⟩
  · exact (mix_all_rejects_invalid_parameters [] 0 false 5 (Or.inl rfl)).1
  · exact (mix_all_rejects_invalid_parameters [] 0 true 0 (Or.inr le_rfl)).1

/-! NCO invariant lemmas. -/

theorem ncoEmit_floor (n : NCO) (h : 0 ≤ n.phase) :
    ncoEmit n = ⌊n.phase * (LUT_SIZE : ℝ) / (2 * Real.pi)⌋ % (LUT_SIZE : ℤ) := by
  unfold ncoEmit ctrunc
  rw [if_pos]
  positivity

theorem ncoEmit_bounds (n : NCO) :
    0 ≤ ncoEmit n ∧ ncoEmit n < (LUT_SIZE : ℤ) := by
  unfold ncoEmit
  exact ⟨Int.emod_nonneg _ (by norm_num [LUT_SIZE]),
    Int.emod_lt_of_pos _ (by norm_num [LUT_SIZE])⟩

theorem ncoStep_inv {n : NCO} (h : NCOInv n) : NCOInv (ncoStep n).1 := by
  obtain ⟨h1, h2, h3, h4⟩ := h
  unfold ncoStep NCOInv
  refine ⟨?_, ?_, h3, h4⟩
  · by_cases hc : 2 * Real.pi ≤ n.phase + n.phaseInc
    · simp only [if_pos hc]
      linarith
    · simp only [if_neg hc]
      linarith
  · by_cases hc : 2 * Real.pi ≤ n.phase + n.phaseInc
    · simp only [if_pos hc]
      linarith
    · simp only [if_neg hc]
      linarith [not_le.mp hc]

theorem ncoGenerate_inv :
    ∀ (k : ℕ) (n : NCO), NCOInv n →
      NCOInv (ncoGenerate n k).1 ∧
        ∀ i ∈ (ncoGenerate n k).2, 0 ≤ i ∧ i < (LUT_SIZE : ℤ) := by
  intro k
  induction k with
  | zero => intro n h; simpa [ncoGenerate] using h
  | succ m ih =>
    intro n h
    have hstep := ncoStep_inv h
    obtain ⟨hr1, hr2⟩ := ih (ncoStep n).1 hstep
    refine ⟨by simpa [ncoGenerate] using hr1, ?_⟩
    intro i hi
    simp only [ncoGenerate] at hi
    rcases List.mem_cons.mp hi with hi | hi
    · subst hi; exact ncoEmit_bounds n
    · exact hr2 i hi

theorem ncoSetFrequency_inv {n : NCO} {f : ℚ} (hs : 0 < n.sampleRate)
    (hf : 0 ≤ f ∧ f < n.sampleRate) (h : NCOInv n) :
    NCOInv (ncoSetFrequency n f) := by
  obtain ⟨h1, h2, _, _⟩ := h
  refine ⟨h1, h2, ?_, ?_⟩
  · have : (0 : ℝ) ≤ (f : ℝ) := by exact_mod_cast hf.1
    have hsr : (0 : ℝ) < (n.sampleRate : ℝ) := by exact_mod_cast hs
    unfold ncoSetFrequency
    positivity
  · have hlt : (f : ℝ) < (n.sampleRate : ℝ) := by exact_mod_cast hf.2
    have hsr : (0 : ℝ) < (n.sampleRate : ℝ) := by exact_mod_cast hs
    unfold ncoSetFrequency
    calc 2 * Real.pi * (f : ℝ) / (n.sampleRate : ℝ)
        = 2 * Real.pi * ((f : ℝ) / (n.sampleRate : ℝ)) := by ring
      _ < 2 * Real.pi * 1 := by
          have hq : (f : ℝ) / (n.sampleRate : ℝ) < 1 :=
            (div_lt_one hsr).mpr hlt
          have h2pi : (0 : ℝ) < 2 * Real.pi := by positivity
          exact (mul_lt_mul_left h2pi).mpr hq
      _ = 2 * Real.pi := by ring

theorem ncoRun_sampleRate :
    ∀ (ops : List NCOOp) (n : NCO), (ncoRun n ops).1.sampleRate = n.sampleRate := by
  intro ops
  induction ops with
  | nil => intro n; rfl
  | cons op ops ih =>
    intro n
    cases op with
    | setFrequency f => simpa [ncoRun, ncoSetFrequency] using ih _
    | resetPhase => simpa [ncoRun, ncoResetPhase] using ih _
    | generate k =>
      have hg : ∀ (j : ℕ) (m : NCO), (ncoGenerate m j).1.sampleRate = m.sampleRate := by
        intro j
        induction j with
        | zero => intro m; rfl
        | succ i ihg => intro m; simpa [ncoGenerate, ncoStep] using ihg _
      simp only [ncoRun]
      rw [ih _, hg]

theorem ncoRun_inv :
    ∀ (ops : List NCOOp) (n : NCO), 0 < n.sampleRate →
      (∀ op ∈ ops, validNCOOp n.sampleRate op) → NCOInv n →
      NCOInv (ncoRun n ops).1 ∧
        ∀ i ∈ (ncoRun n ops).2, 0 ≤ i ∧ i < (LUT_SIZE : ℤ) := by
  intro ops
  induction ops with
  | nil => intro n _ _ h; exact ⟨h, by simp [ncoRun]⟩
  | cons op ops ih =>
    intro n hs hops h
    have hop := hops op (List.mem_cons_self op ops)
    have hrest : ∀ o ∈ ops, validNCOOp n.sampleRate o :=
      fun o ho => hops o (List.mem_cons_of_mem op ho)
    cases op with
    | setFrequency f =>
      have h1 : NCOInv (ncoSetFrequency n f) := ncoSetFrequency_inv hs hop h
      have := ih (ncoSetFrequency n f) (by simpa [ncoSetFrequency] using hs)
        (by simpa [ncoSetFrequency] using hrest) h1
      simpa [ncoRun] using this
    | resetPhase =>
      have h1 : NCOInv (ncoResetPhase n) := by
        obtain ⟨_, _, h3, h4⟩ := h
        exact ⟨le_refl 0, by positivity, h3, h4⟩
      have := ih (ncoResetPhase n) (by simpa [ncoResetPhase] using hs)
        (by simpa [ncoResetPhase] using hrest) h1
      simpa [ncoRun] using this
    | generate k =>
      obtain ⟨hg1, hg2⟩ := ncoGenerate_inv k n h
      have hsr : 0 < (ncoGenerate n k).1.sampleRate := by
        have hgr : ∀ (j : ℕ) (m : NCO), (ncoGenerate m j).1.sampleRate = m.sampleRate := by
          intro j
          induction j with
          | zero => intro m; rfl
          | succ i ihg => intro m; simpa [ncoGenerate, ncoStep] using ihg _
        rw [hgr]; exact hs
      have hvr : ∀ o ∈ ops, validNCOOp (ncoGenerate n k).1.sampleRate o := by
        have hgr : ∀ (j : ℕ) (m : NCO), (ncoGenerate m j).1.sampleRate = m.sampleRate := by
          intro j
          induction j with
          | zero => intro m; rfl
          | succ i ihg => intro m; simpa [ncoGenerate, ncoStep] using ihg _
        rw [hgr]; exact hrest
      obtain ⟨hr1, hr2⟩ := ih (ncoGenerate n k).1 hsr hvr hg1
      refine ⟨by simpa [ncoRun] using hr1, ?_⟩
      intro i hi
      simp only [ncoRun, List.mem_append] at hi
      rcases hi with hi | hi
      · exact hg2 i hi
      · exact hr2 i hi

/-- C9 counterexample: set_frequency accepts any frequency, and a
negative frequency gives a negative phase increment which the
generate-loop wrap never repairs: with sample rate 1 and frequency -1,
the phase after one generated sample is minus two pi, outside the claimed
interval. -/
theorem nco_phase_counterexample :
    ¬ (0 ≤ (ncoRun (ncoInit 1) [NCOOp.setFrequency (-1), NCOOp.generate 1]).1.phase ∧
       (ncoRun (ncoInit 1) [NCOOp.setFrequency (-1), NCOOp.generate 1]).1.phase <
         2 * Real.pi) := by
  have hinc : (ncoSetFrequency (ncoInit 1) (-1)).phaseInc = -(2 * Real.pi) := by
    simp [ncoSetFrequency, ncoInit]
  have hphase :
      (ncoRun (ncoInit 1) [NCOOp.setFrequency (-1), NCOOp.generate 1]).1.phase =
        -(2 * Real.pi) := by
    simp only [ncoRun, ncoGenerate, ncoStep]
    rw [if_neg]
    · show (ncoSetFrequency (ncoInit 1) (-1)).phase +
        (ncoSetFrequency (ncoInit 1) (-1)).phaseInc = -(2 * Real.pi)
      rw [hinc]
      show (0 : ℝ) + -(2 * Real.pi) = -(2 * Real.pi)
      ring
    · rw [hinc]
      show ¬ 2 * Real.pi ≤ (0 : ℝ) + -(2 * Real.pi)
      have := Real.pi_pos
      intro hcon
      linarith
  rw [hphase]
  intro hcon
  have := Real.pi_pos
  linarith [hcon.1]

/-- C9 amended: restricted to set_frequency calls with a nonnegative
frequency below the sample rate (so that the phase increment lies in the
interval from zero to two pi), the carrier phase stays in that interval
after every operation sequence, every emitted table index is in range,
and for a nonnegative phase the emitted index is the floor of phase times
table size over two pi, reduced mod the table size, as claimed. -/
theorem nco_invariant (fs : ℚ) (hfs : 0 < fs) (ops : List NCOOp)
    (hops : ∀ op ∈ ops, validNCOOp fs op) :
    (0 ≤ (ncoRun (ncoInit fs) ops).1.phase ∧
      (ncoRun (ncoInit fs) ops).1.phase < 2 * Real.pi) ∧
    (∀ i ∈ (ncoRun (ncoInit fs) ops).2, 0 ≤ i ∧ i < (LUT_SIZE : ℤ)) ∧
    (∀ n : NCO, 0 ≤ n.phase →
      ncoEmit n = ⌊n.phase * (LUT_SIZE : ℝ) / (2 * Real.pi)⌋ % (LUT_SIZE : ℤ)) := by
  have hinit : NCOInv (ncoInit fs) := by
    refine ⟨le_refl 0, by positivity, le_refl 0, by positivity⟩
  obtain ⟨h1, h2⟩ := ncoRun_inv ops (ncoInit fs) (by simpa [ncoInit] using hfs)
    (by simpa [ncoInit] using hops) hinit
  exact ⟨⟨h1.1, h1.2.1⟩, h2, fun n hn => ncoEmit_floor n hn⟩

/-- C9 witness: the amended invariant instantiated at sample rate 4 with
one admissible set_frequency call and two generated samples. -/
theorem nco_invariant_witness :
    0 ≤ (ncoRun (ncoInit 4) [NCOOp.setFrequency 1, NCOOp.generate 2]).1.phase ∧
      (ncoRun (ncoInit 4) [NCOOp.setFrequency 1, NCOOp.generate 2]).1.phase <
        2 * Real.pi := by
  have h := nco_invariant 4 (by norm_num)
    [NCOOp.setFrequency 1, NCOOp.generate 2]
    (by
      intro op hop
      rcases List.mem_cons.mp hop with h1 | h1
      · subst h1; exact ⟨by norm_num, by norm_num⟩
      · rcases List.mem_cons.mp h1 with h2 | h2
        · subst h2; trivial
        · simp at h2)
  exact h.1

/-! Provider state-machine lemmas. -/

theorem gpsProcessOneSat_skeleton (fs : ℚ) (n : ℕ) (t0 : ℚ) (sat : GpsSat)
    (buf : List (ℤ × ℤ)) (cm : ℕ → Option GpsChipState) :
    (gpsProcessOneSat fs n t0 sat buf cm).1.prn = sat.prn ∧
      (gpsProcessOneSat fs n t0 sat buf cm).1.isActive = sat.isActive :=
  ⟨rfl, rfl⟩

theorem gpsProcessSats_skeleton (fs : ℚ) (n : ℕ) (t0 : ℚ) :
    ∀ (sats : List GpsSat) (buf : List (ℤ × ℤ)) (cm : ℕ → Option GpsChipState),
      ((gpsProcessSats fs n t0 sats buf cm).1).map (fun s => (s.prn, s.isActive)) =
        sats.map (fun s => (s.prn, s.isActive)) := by
  intro sats
  induction sats with
  | nil => intro buf cm; rfl
  | cons sat rest ih =>
    intro buf cm
    by_cases ha : sat.isActive = true
    · simp only [gpsProcessSats, if_pos ha, List.map_cons]
      rw [ih]
      simp [(gpsProcessOneSat_skeleton fs n t0 sat buf cm).1,
        (gpsProcessOneSat_skeleton fs n t0 sat buf cm).2]
    · simp only [gpsProcessSats, if_neg ha, List.map_cons]
      rw [ih]

theorem skeleton_transfer {l1 l2 : List GpsSat}
    (h : l1.map (fun s => (s.prn, s.isActive)) =
      l2.map (fun s => (s.prn, s.isActive))) :
    (l1 ≠ [] ↔ l2 ≠ []) ∧
      ((∃ sat ∈ l1, sat.isActive = true) → ∃ sat ∈ l2, sat.isActive = true) := by
  constructor
  · constructor
    · intro h1 h2
      subst h2
      simp at h
      exact h1 h
    · intro h2 h1
      subst h1
      simp at h
      exact h2 h
  · rintro ⟨sat, hm, ha⟩
    have hmem : (sat.prn, sat.isActive) ∈
        l2.map (fun s => (s.prn, s.isActive)) := by
      rw [← h]
      exact List.mem_map_of_mem _ hm
    obtain ⟨sat2, hm2, he⟩ := List.mem_map.mp hmem
    refine ⟨sat2, hm2, ?_⟩
    have := congrArg Prod.snd he
    simpa [ha] using this

theorem gpsGenerateChunk_state (st : GpsProviderState) (n : ℕ) (t0 : ℚ)
    (l : List (ℤ × ℤ)) (st' : GpsProviderState)
    (h : gpsGenerateChunk st n t0 = Except.ok (l, st')) :
    st'.configured = st.configured ∧
      st'.ephemerisLoaded = st.ephemerisLoaded ∧
      st'.sats.map (fun s => (s.prn, s.isActive)) =
        st.sats.map (fun s => (s.prn, s.isActive)) := by
  unfold gpsGenerateChunk at h
  by_cases hr : gpsIsReady st = true
  · rw [if_pos hr] at h
    by_cases hm : mixApplied st.frequencyOffsetHz = true
    · simp only [if_pos hm, Except.ok.injEq, Prod.mk.injEq] at h
      rw [← h.2]
      exact ⟨rfl, rfl, gpsProcessSats_skeleton _ _ _ _ _ _⟩
    · simp only [if_neg hm, Except.ok.injEq, Prod.mk.injEq] at h
      rw [← h.2]
      exact ⟨rfl, rfl, gpsProcessSats_skeleton _ _ _ _ _ _⟩
  · rw [if_neg hr] at h
    exact absurd h (by simp)

theorem gpsLoadEphemeris_isActive (m : List (ℕ × EphemerisData)) (sat : GpsSat) :
    ((match List.lookup sat.prn m with
      | some e => { sat with ephemeris := e }
      | none => sat) : GpsSat).isActive = sat.isActive := by
  cases List.lookup sat.prn m <;> rfl

theorem gpsDefaultSats_first_active :
    ∃ sat ∈ gpsDefaultSats, sat.isActive = true := by
  refine ⟨{ prn := 1
            dopplerHz := 0
            powerDbm := -130
            codePhaseChips := 0
            carrierPhaseRad := 0
            isActive := true
            ephemeris := ephemerisDefault },
    List.mem_map.mpr ⟨0, ?_, rfl⟩, rfl⟩
  simp

theorem gpsApplyOp_inv (st : GpsProviderState) (op : GpsOp) (h : GpsInv st) :
    GpsInv (gpsApplyOp st op) := by
  cases op with
  | configure cfg =>
    refine ⟨?_, fun _ => ?_⟩
    · show (true = true ↔ gpsDefaultSats ≠ [])
      simp [gpsDefaultSats]
    · show ∃ sat ∈ gpsDefaultSats, sat.isActive = true
      exact gpsDefaultSats_first_active
  | loadEphemeris p =>
    cases p with
    | none => exact h
    | some m =>
      obtain ⟨h1, h2⟩ := h
      constructor
      · show (st.configured = true ↔ st.sats.map _ ≠ [])
        rw [h1]
        simp
      · intro hne
        have hne0 : st.sats ≠ [] := by
          intro hc
          apply hne
          show st.sats.map _ = []
          rw [hc]
          rfl
        obtain ⟨sat, hm, ha⟩ := h2 hne0
        refine ⟨_, List.mem_map_of_mem _ hm, ?_⟩
        rw [gpsLoadEphemeris_isActive m sat]
        exact ha
  | setFrequencyOffset o => exact h
  | generateChunk n t0 =>
    show GpsInv (match gpsGenerateChunk st n t0 with
      | Except.ok r => r.2
      | Except.error _ => st)
    cases hg : gpsGenerateChunk st n t0 with
    | error e => exact h
    | ok r =>
      show GpsInv r.2
      obtain ⟨hc, hl, hsk⟩ := gpsGenerateChunk_state st n t0 r.1 r.2 (by rw [hg])
      obtain ⟨hneIff, _⟩ := skeleton_transfer hsk
      obtain ⟨_, hexStR⟩ := skeleton_transfer hsk.symm
      obtain ⟨h1, h2⟩ := h
      exact ⟨by rw [hc, h1]; exact hneIff.symm,
        fun hn => hexStR (h2 (hneIff.mp hn))⟩

theorem gpsRun_inv (ops : List GpsOp) : GpsInv (gpsRun ops) := by
  have hstep : ∀ (l : List GpsOp) (st : GpsProviderState), GpsInv st →
      GpsInv (List.foldl gpsApplyOp st l) := by
    intro l
    induction l with
    | nil => intro st h; exact h
    | cons op l ih =>
      intro st h
      exact ih _ (gpsApplyOp_inv st op h)
  have hinit : GpsInv gpsInitialState := by
    constructor
    · show (false = true ↔ ([] : List GpsSat) ≠ [])
      simp
    · intro hc
      exact absurd rfl hc
  exact hstep ops gpsInitialState hinit

/-- C4: over every operation sequence on the GPS provider (the CDMA base
implementation the claim sources cite), is_ready is true exactly when the
provider is configured, ephemeris has been loaded and at least one active
satellite exists; and generate_chunk in any reachable state where
is_ready is false raises NotReady, producing no samples. -/
theorem gps_is_ready_iff (ops : List GpsOp) (n : ℕ) (t0 : ℚ) :
    (gpsIsReady (gpsRun ops) = true ↔
      (gpsRun ops).configured = true ∧
        (gpsRun ops).ephemerisLoaded = true ∧
        ∃ sat ∈ (gpsRun ops).sats, sat.isActive = true) ∧
    (gpsIsReady (gpsRun ops) = false →
      gpsGenerateChunk (gpsRun ops) n t0 = Except.error OrchError.notReady) := by
  have hinv := gpsRun_inv ops
  constructor
  · unfold gpsIsReady
    constructor
    · intro hr
      simp only [Bool.and_eq_true, Bool.not_eq_true'] at hr
      obtain ⟨⟨hc, hl⟩, hne⟩ := hr
      refine ⟨hc, hl, hinv.2 ?_⟩
      intro hcon
      rw [hcon] at hne
      exact absurd hne (by simp)
    · rintro ⟨hc, hl, sat, hm, _⟩
      simp only [Bool.and_eq_true, Bool.not_eq_true']
      refine ⟨⟨hc, hl⟩, ?_⟩
      have : (gpsRun ops).sats ≠ [] := List.ne_nil_of_mem hm
      simpa [List.isEmpty_iff] using this
  · intro hfalse
    unfold gpsGenerateChunk
    rw [if_neg]
    rw [hfalse]
    simp

/-- C4 witness: a configure followed by a successful ephemeris load of an
empty record set yields a ready provider (the default satellites carry
the active flags). -/
theorem gps_is_ready_iff_witness :
    gpsIsReady (gpsRun
      [GpsOp.configure ⟨60000000⟩, GpsOp.loadEphemeris (some [])]) = true := by
  have h := (gps_is_ready_iff
    [GpsOp.configure ⟨60000000⟩, GpsOp.loadEphemeris (some [])] 1 0).1
  apply h.mpr
  have hsats : (gpsRun
      [GpsOp.configure ⟨60000000⟩, GpsOp.loadEphemeris (some [])]).sats =
      gpsDefaultSats := by
    simp [gpsRun, gpsApplyOp, gpsConfigure, gpsLoadEphemeris, gpsInitialState]
  refine ⟨?_, ?_, ?_⟩
  · rfl
  · rfl
  · rw [hsats]
    exact gpsDefaultSats_first_active

/-! Chunk-splitting lemmas for generate_chunk. -/

theorem fmodReal_add_nat_mul {phi : ℝ} (k : ℕ) (h0 : 0 ≤ phi)
    (h2 : phi < 2 * Real.pi) :
    fmodReal (phi + 2 * Real.pi * (k : ℝ)) (2 * Real.pi) = phi := by
  have hpos : (0 : ℝ) < 2 * Real.pi := by positivity
  unfold fmodReal ctrunc
  have harg : (phi + 2 * Real.pi * (k : ℝ)) / (2 * Real.pi) =
      phi / (2 * Real.pi) + (k : ℝ) := by
    field_simp
    ring
  rw [if_pos, harg]
  · have h1 : ⌊phi / (2 * Real.pi)⌋ = 0 := by
      apply Int.floor_eq_zero_iff.mpr
      rw [Set.mem_Ico]
      exact ⟨div_nonneg h0 hpos.le, (div_lt_one hpos).mpr h2⟩
    rw [Int.floor_add_nat, h1]
    push_cast
    ring
  · have hk0 : (0 : ℝ) ≤ 2 * Real.pi * (k : ℝ) := by positivity
    apply div_nonneg _ hpos.le
    linarith

theorem gpsSatLoop_length (d : ℕ) (dop phi : ℝ) :
    ∀ (l : List ℚ) (st : GpsChipState × ℤ),
      ((gpsSatLoop d dop phi st l).2).length = l.length := by
  intro l
  induction l with
  | nil => intro st; rfl
  | cons t ts ih =>
    intro st
    simp only [gpsSatLoop, List.length_cons]
    rw [ih]

theorem gpsSatLoop_append (d : ℕ) (dop phi : ℝ) :
    ∀ (l1 l2 : List ℚ) (st : GpsChipState × ℤ),
      gpsSatLoop d dop phi st (l1 ++ l2) =
        ((gpsSatLoop d dop phi (gpsSatLoop d dop phi st l1).1 l2).1,
          (gpsSatLoop d dop phi st l1).2 ++
            (gpsSatLoop d dop phi (gpsSatLoop d dop phi st l1).1 l2).2) := by
  intro l1
  induction l1 with
  | nil => intro l2 st; simp [gpsSatLoop]
  | cons t ts ih =>
    intro l2 st
    simp only [List.cons_append, gpsSatLoop, List.append_eq]
    rw [ih]

theorem bufferAdd_append (b1 b2 : List (ℤ × ℤ)) (s1 s2 : List ℤ)
    (h : b1.length = s1.length) :
    bufferAdd (b1 ++ b2) (s1 ++ s2) = bufferAdd b1 s1 ++ bufferAdd b2 s2 := by
  unfold bufferAdd
  exact List.zipWith_append _ _ _ _ _ h

theorem insertCode_self (prn : ℕ) (st : GpsChipState)
    (cm : ℕ → Option GpsChipState) : insertCode prn st cm prn = some st := by
  simp [insertCode]

theorem gpsCm1_insert (prn : ℕ) (x : GpsChipState)
    (cm : ℕ → Option GpsChipState) :
    gpsCm1 prn (insertCode prn x cm) = insertCode prn x cm := by
  unfold gpsCm1
  rw [insertCode_self]

theorem insertCode_insertCode (prn : ℕ) (a b : GpsChipState)
    (cm : ℕ → Option GpsChipState) :
    insertCode prn b (insertCode prn a cm) = insertCode prn b cm := by
  funext q
  by_cases h : q = prn <;> simp [insertCode, h]

theorem gpsCm1_self (prn : ℕ) (cm : ℕ → Option GpsChipState) :
    gpsCm1 prn cm prn = some ((gpsCm1 prn cm prn).getD (gpsInitCodeState prn)) := by
  unfold gpsCm1
  cases h : cm prn with
  | some s =>
    show cm prn = some ((cm prn).getD (gpsInitCodeState prn))
    rw [h]
    rfl
  | none =>
    show insertCode prn (gpsInitCodeState prn) cm prn =
      some ((insertCode prn (gpsInitCodeState prn) cm prn).getD
        (gpsInitCodeState prn))
    rw [insertCode_self]
    rfl

theorem gpsGenerateChunk_no_mix (st : GpsProviderState) (m : ℕ) (t : ℚ)
    (hready : gpsIsReady st = true)
    (hmix : mixApplied st.frequencyOffsetHz = false) :
    gpsGenerateChunk st m t = Except.ok
      ((gpsProcessSats st.samplingRateHz m t st.sats
          (List.replicate m ((0 : ℤ), (0 : ℤ))) st.codeStates).2.1,
        { st with
          sats := (gpsProcessSats st.samplingRateHz m t st.sats
            (List.replicate m ((0 : ℤ), (0 : ℤ))) st.codeStates).1
          codeStates := (gpsProcessSats st.samplingRateHz m t st.sats
            (List.replicate m ((0 : ℤ), (0 : ℤ))) st.codeStates).2.2 }) := by
  unfold gpsGenerateChunk
  rw [if_pos hready, if_neg (by rw [hmix]; simp)]

theorem satTimes_length (fs t0 : ℚ) (n : ℕ) : (satTimes fs t0 n).length = n := by
  rw [satTimes, List.length_map, List.length_range]

theorem satTimes_add (fs t0 : ℚ) (n m : ℕ) :
    satTimes fs t0 (n + m) =
      satTimes fs t0 n ++ satTimes fs (t0 + (n : ℚ) / fs) m := by
  unfold satTimes
  rw [List.range_add, List.map_append, List.map_map]
  congr 1
  apply List.map_congr_left
  intro i _
  show t0 + ((n + i : ℕ) : ℚ) / fs = t0 + (n : ℚ) / fs + (i : ℚ) / fs
  push_cast
  ring

theorem gpsPhiNext_eq_self (phi dop : ℝ) (n k : ℕ) (fs : ℚ)
    (h0 : 0 ≤ phi) (h2 : phi < 2 * Real.pi)
    (hk : ((GPS_CARRIER_FREQ : ℝ) + dop) * (n : ℝ) / (fs : ℝ) = (k : ℝ)) :
    gpsPhiNext phi dop n fs = phi := by
  unfold gpsPhiNext
  have harg : phi + 2 * Real.pi * ((GPS_CARRIER_FREQ : ℝ) + dop) * (n : ℝ) /
      (fs : ℝ) = phi + 2 * Real.pi * (k : ℝ) := by
    rw [← hk]
    ring
  rw [harg]
  exact fmodReal_add_nat_mul k h0 h2

theorem gpsDop_invalid (s : GpsSat) (t : ℚ) (h : s.ephemeris.isValid = false) :
    gpsDop s t = s.dopplerHz := by
  unfold gpsDop
  rw [h]
  simp

theorem gpsDop_update (sat : GpsSat) (t : ℚ) (dz : ℝ) (cp : ℤ) (ph : ℝ)
    (h : sat.ephemeris.isValid = false) :
    gpsDop
      { prn := sat.prn
        dopplerHz := dz
        powerDbm := sat.powerDbm
        codePhaseChips := cp
        carrierPhaseRad := ph
        isActive := sat.isActive
        ephemeris := sat.ephemeris } t = dz := by
  unfold gpsDop
  dsimp only
  rw [h]
  simp

theorem gpsProcessOneSat_split (fs : ℚ) (n : ℕ) (t0 : ℚ) (sat : GpsSat)
    (buf1 buf2 : List (ℤ × ℤ)) (cm : ℕ → Option GpsChipState) (k : ℕ)
    (hlen1 : buf1.length = n)
    (heph : sat.ephemeris.isValid = false)
    (hphi0 : 0 ≤ sat.carrierPhaseRad) (hphi2 : sat.carrierPhaseRad < 2 * Real.pi)
    (hk : ((GPS_CARRIER_FREQ : ℝ) + sat.dopplerHz) * (n : ℝ) / (fs : ℝ) = (k : ℝ)) :
    gpsProcessOneSat fs (n + n) t0 sat (buf1 ++ buf2) cm =
      ((gpsProcessOneSat fs n (t0 + (n : ℚ) / fs)
          (gpsProcessOneSat fs n t0 sat buf1 cm).1 buf2
          (gpsProcessOneSat fs n t0 sat buf1 cm).2.2).1,
        (gpsProcessOneSat fs n t0 sat buf1 cm).2.1 ++
          (gpsProcessOneSat fs n (t0 + (n : ℚ) / fs)
            (gpsProcessOneSat fs n t0 sat buf1 cm).1 buf2
            (gpsProcessOneSat fs n t0 sat buf1 cm).2.2).2.1,
        (gpsProcessOneSat fs n (t0 + (n : ℚ) / fs)
          (gpsProcessOneSat fs n t0 sat buf1 cm).1 buf2
          (gpsProcessOneSat fs n t0 sat buf1 cm).2.2).2.2) := by
  have hksum : ((GPS_CARRIER_FREQ : ℝ) + sat.dopplerHz) * ((n + n : ℕ) : ℝ) /
      (fs : ℝ) = ((k + k : ℕ) : ℝ) := by
    push_cast
    calc ((GPS_CARRIER_FREQ : ℝ) + sat.dopplerHz) * ((n : ℝ) + (n : ℝ)) / (fs : ℝ)
        = ((GPS_CARRIER_FREQ : ℝ) + sat.dopplerHz) * (n : ℝ) / (fs : ℝ) +
            ((GPS_CARRIER_FREQ : ℝ) + sat.dopplerHz) * (n : ℝ) / (fs : ℝ) := by
          ring
      _ = (k : ℝ) + (k : ℝ) := by rw [hk]
  simp only [gpsProcessOneSat]
  rw [gpsDop_invalid sat t0 heph]
  rw [gpsDop_update sat (t0 + (n : ℚ) / fs) _ _ _ heph]
  rw [gpsPhiNext_eq_self sat.carrierPhaseRad sat.dopplerHz n k fs hphi0 hphi2 hk]
  rw [gpsPhiNext_eq_self sat.carrierPhaseRad sat.dopplerHz n k fs hphi0 hphi2 hk]
  rw [gpsPhiNext_eq_self sat.carrierPhaseRad sat.dopplerHz (n + n) (k + k) fs
    hphi0 hphi2 hksum]
  rw [gpsCm1_insert]
  rw [insertCode_self]
  simp only [Option.getD_some, Prod.mk.eta]
  rw [satTimes_add fs t0 n n]
  rw [gpsSatLoop_append]
  rw [bufferAdd_append _ _ _ _ (by rw [hlen1, gpsSatLoop_length, satTimes_length])]
  rw [insertCode_insertCode]


/-- C2 (amended): for a ready single-satellite provider with no final NCO
mix, no valid ephemeris, in-range carrier phase, and a whole number of
carrier cycles per chunk, generating one 2n-sample chunk equals the
concatenation of two successive n-sample chunks. -/
theorem gps_chunk_concat (st : GpsProviderState) (sat : GpsSat) (n : ℕ)
    (t0 : ℚ) (k : ℕ)
    (hsats : st.sats = [sat])
    (hconf : st.configured = true) (hload : st.ephemerisLoaded = true)
    (hmix : mixApplied st.frequencyOffsetHz = false)
    (heph : sat.ephemeris.isValid = false)
    (hphi0 : 0 ≤ sat.carrierPhaseRad) (hphi2 : sat.carrierPhaseRad < 2 * Real.pi)
    (hk : ((GPS_CARRIER_FREQ : ℝ) + sat.dopplerHz) * (n : ℝ) /
      (st.samplingRateHz : ℝ) = (k : ℝ)) :
    chunkSamples (gpsGenerateChunk st n t0) ++
      chunkSamples (gpsGenerateChunk (chunkNext st (gpsGenerateChunk st n t0)) n
        (t0 + (n : ℚ) / st.samplingRateHz)) =
      chunkSamples (gpsGenerateChunk st (n + n) t0) := by
  have hready : gpsIsReady st = true := by
    unfold gpsIsReady
    rw [hconf, hload, hsats]
    rfl
  rw [gpsGenerateChunk_no_mix st n t0 hready hmix]
  rw [gpsGenerateChunk_no_mix st (n + n) t0 hready hmix]
  simp only [chunkNext]
  rw [hsats]
  by_cases hact : sat.isActive = true
  · simp only [gpsProcessSats, if_pos hact]
    simp only [chunkSamples]
    set one := gpsProcessOneSat st.samplingRateHz n t0 sat
      (List.replicate n ((0 : ℤ), (0 : ℤ))) st.codeStates with hone
    have hready1 : gpsIsReady
        ⟨st.configured, st.ephemerisLoaded, st.frequencyOffsetHz,
          st.samplingRateHz, st.nco, [one.1], one.2.2⟩ = true := by
      unfold gpsIsReady
      dsimp only
      rw [hconf, hload]
      rfl
    have hmix1 : mixApplied
        ((⟨st.configured, st.ephemerisLoaded, st.frequencyOffsetHz,
          st.samplingRateHz, st.nco, [one.1], one.2.2⟩ :
            GpsProviderState)).frequencyOffsetHz = false := hmix
    rw [gpsGenerateChunk_no_mix _ n (t0 + (n : ℚ) / st.samplingRateHz)
      hready1 hmix1]
    simp only [chunkSamples]
    have hact1 : one.1.isActive = true := by rw [hone]; exact hact
    simp only [gpsProcessSats, if_pos hact1]
    rw [show List.replicate (n + n) ((0 : ℤ), (0 : ℤ)) =
        List.replicate n ((0 : ℤ), (0 : ℤ)) ++
          List.replicate n ((0 : ℤ), (0 : ℤ)) from List.replicate_add n n _]
    rw [gpsProcessOneSat_split st.samplingRateHz n t0 sat
      (List.replicate n ((0 : ℤ), (0 : ℤ))) (List.replicate n ((0 : ℤ), (0 : ℤ)))
      st.codeStates k (List.length_replicate n _) heph hphi0 hphi2 hk]
  · simp only [gpsProcessSats, if_neg hact]
    simp only [chunkSamples]
    have hready1 : gpsIsReady
        ⟨st.configured, st.ephemerisLoaded, st.frequencyOffsetHz,
          st.samplingRateHz, st.nco, [sat], st.codeStates⟩ = true := by
      unfold gpsIsReady
      dsimp only
      rw [hconf, hload]
      rfl
    have hmix1 : mixApplied
        ((⟨st.configured, st.ephemerisLoaded, st.frequencyOffsetHz,
          st.samplingRateHz, st.nco, [sat], st.codeStates⟩ :
            GpsProviderState)).frequencyOffsetHz = false := hmix
    rw [gpsGenerateChunk_no_mix _ n (t0 + (n : ℚ) / st.samplingRateHz)
      hready1 hmix1]
    simp only [chunkSamples]
    simp only [gpsProcessSats, if_neg hact]
    rw [show List.replicate (n + n) ((0 : ℤ), (0 : ℤ)) =
        List.replicate n ((0 : ℤ), (0 : ℤ)) ++
          List.replicate n ((0 : ℤ), (0 : ℤ)) from List.replicate_add n n _]
theorem step_eval_A :
    gpsSampleStep (gpsDelay 1) 0 0 (gpsInitCodeState 1, 0) 0 =
      ((gpsInitCodeState 1, 0), -1000) := by
  unfold gpsSampleStep
  have hci : cppIntRem (ratTrunc ((0 : ℚ) * GPS_CHIP_RATE)) 1023 = 0 := by
    norm_num [ratTrunc, cppIntRem, GPS_CHIP_RATE]
  rw [hci]
  have hcos : Real.cos (2 * Real.pi * ((GPS_CARRIER_FREQ : ℝ) + 0) *
      (((0 : ℚ)) : ℝ) + 0) = 1 := by
    have h0 : (((0 : ℚ)) : ℝ) = 0 := by push_cast; norm_num
    rw [h0]
    norm_num [Real.cos_zero]
  rw [hcos]
  norm_num [gpsInitCodeState, ctrunc]

theorem step_eval_B :
    gpsSampleStep (gpsDelay 1) 0 0 (gpsInitCodeState 1, 0)
      ((1 : ℚ) / 3150840000) =
      ((gpsInitCodeState 1, 0), 1000) := by
  unfold gpsSampleStep
  have hci : cppIntRem (ratTrunc (((1 : ℚ) / 3150840000) * GPS_CHIP_RATE)) 1023 = 0 := by
    norm_num [ratTrunc, cppIntRem, GPS_CHIP_RATE]
  rw [hci]
  have hcos : Real.cos (2 * Real.pi * ((GPS_CARRIER_FREQ : ℝ) + 0) *
      ((((1 : ℚ) / 3150840000) : ℚ) : ℝ) + 0) = -1 := by
    have h1 : 2 * Real.pi * ((GPS_CARRIER_FREQ : ℝ) + 0) *
        ((((1 : ℚ) / 3150840000) : ℚ) : ℝ) + 0 = Real.pi := by
      push_cast
      norm_num [GPS_CARRIER_FREQ]
      ring_nf
    rw [h1, Real.cos_pi]
  rw [hcos]
  norm_num [gpsInitCodeState, ctrunc]

theorem step_eval_C :
    gpsSampleStep (gpsDelay 1) 0 Real.pi (gpsInitCodeState 1, 0)
      ((1 : ℚ) / 3150840000) =
      ((gpsInitCodeState 1, 0), -1000) := by
  unfold gpsSampleStep
  have hci : cppIntRem (ratTrunc (((1 : ℚ) / 3150840000) * GPS_CHIP_RATE)) 1023 = 0 := by
    norm_num [ratTrunc, cppIntRem, GPS_CHIP_RATE]
  rw [hci]
  have hcos : Real.cos (2 * Real.pi * ((GPS_CARRIER_FREQ : ℝ) + 0) *
      ((((1 : ℚ) / 3150840000) : ℚ) : ℝ) + Real.pi) = 1 := by
    have h1 : 2 * Real.pi * ((GPS_CARRIER_FREQ : ℝ) + 0) *
        ((((1 : ℚ) / 3150840000) : ℚ) : ℝ) + Real.pi =
        2 * Real.pi := by
      push_cast
      norm_num [GPS_CARRIER_FREQ]
      ring_nf
    rw [h1, Real.cos_two_pi]
  rw [hcos]
  norm_num [gpsInitCodeState, ctrunc]

theorem satTimes_one_zero : satTimes 3150840000 0 1 = [(0 : ℚ)] := by
  norm_num [satTimes, List.range_succ, List.range_zero]

theorem satTimes_two_zero :
    satTimes 3150840000 0 2 = [(0 : ℚ), (1 : ℚ) / 3150840000] := by
  norm_num [satTimes, List.range_succ, List.range_zero]

theorem satTimes_one_second :
    satTimes 3150840000 (0 + 1 / (3150840000 : ℚ)) 1 = [(1 : ℚ) / 3150840000] := by
  norm_num [satTimes, List.range_succ, List.range_zero]

theorem loop_eval_A :
    gpsSatLoop (gpsDelay 1) 0 0 (gpsInitCodeState 1, 0) [(0 : ℚ)] =
      ((gpsInitCodeState 1, 0), [-1000]) := by
  simp only [gpsSatLoop, step_eval_A]

theorem loop_eval_AB :
    gpsSatLoop (gpsDelay 1) 0 0 (gpsInitCodeState 1, 0)
      [(0 : ℚ), (1 : ℚ) / 3150840000] =
      ((gpsInitCodeState 1, 0), [-1000, 1000]) := by
  simp only [gpsSatLoop, step_eval_A, step_eval_B]

theorem loop_eval_C :
    gpsSatLoop (gpsDelay 1) 0 Real.pi (gpsInitCodeState 1, 0)
      [(1 : ℚ) / 3150840000] =
      ((gpsInitCodeState 1, 0), [-1000]) := by
  simp only [gpsSatLoop, step_eval_C]

theorem gpsDop_satA (t : ℚ) : gpsDop satA t = 0 := by
  simp [gpsDop, satA, ephemerisDefault]

theorem gpsPhiNext_pi : gpsPhiNext 0 0 1 3150840000 = Real.pi := by
  unfold gpsPhiNext
  have harg : (0 : ℝ) + 2 * Real.pi * ((GPS_CARRIER_FREQ : ℝ) + 0) *
      (((1 : ℕ)) : ℝ) / (((3150840000 : ℚ)) : ℝ) =
      Real.pi + 2 * Real.pi * (((0 : ℕ)) : ℝ) := by
    push_cast
    norm_num [GPS_CARRIER_FREQ]
    ring_nf
  rw [harg, fmodReal_add_nat_mul 0 Real.pi_pos.le (by linarith [Real.pi_pos])]

theorem one_eval_first :
    gpsProcessOneSat 3150840000 1 0 satA [((0 : ℤ), (0 : ℤ))] (fun _ => none) =
      (satB1, [((-1000 : ℤ), (0 : ℤ))],
        insertCode 1 (gpsInitCodeState 1)
          (insertCode 1 (gpsInitCodeState 1) (fun _ => none))) := by
  have hprn : satA.prn = 1 := rfl
  have hcpc : satA.codePhaseChips = 0 := rfl
  have hphi : satA.carrierPhaseRad = 0 := rfl
  have hcm1 : gpsCm1 1 (fun _ => none) =
      insertCode 1 (gpsInitCodeState 1) (fun _ => none) := by
    simp [gpsCm1]
  have happ : insertCode 1 (gpsInitCodeState 1) (fun _ => none) 1 =
      some (gpsInitCodeState 1) := by
    simp [insertCode]
  simp only [gpsProcessOneSat, hprn, hcpc, hphi, hcm1, happ, Option.getD_some,
    gpsDop_satA, satTimes_one_zero, loop_eval_A, gpsPhiNext_pi]
  norm_num [bufferAdd, clamp16, satB1, satA, GpsSat.mk.injEq]

theorem one_eval_double_buf :
    (gpsProcessOneSat 3150840000 2 0 satA
        [((0 : ℤ), (0 : ℤ)), ((0 : ℤ), (0 : ℤ))] (fun _ => none)).2.1 =
      [((-1000 : ℤ), (0 : ℤ)), ((1000 : ℤ), (0 : ℤ))] := by
  have hprn : satA.prn = 1 := rfl
  have hcpc : satA.codePhaseChips = 0 := rfl
  have hphi : satA.carrierPhaseRad = 0 := rfl
  have hcm1 : gpsCm1 1 (fun _ => none) =
      insertCode 1 (gpsInitCodeState 1) (fun _ => none) := by
    simp [gpsCm1]
  have happ : insertCode 1 (gpsInitCodeState 1) (fun _ => none) 1 =
      some (gpsInitCodeState 1) := by
    simp [insertCode]
  simp only [gpsProcessOneSat, hprn, hcpc, hphi, hcm1, happ, Option.getD_some,
    gpsDop_satA, satTimes_two_zero, loop_eval_AB]
  norm_num [bufferAdd, clamp16]

theorem one_eval_second_buf :
    (gpsProcessOneSat 3150840000 1 (0 + 1 / (3150840000 : ℚ)) satB1
        [((0 : ℤ), (0 : ℤ))]
        (insertCode 1 (gpsInitCodeState 1)
          (insertCode 1 (gpsInitCodeState 1) (fun _ => none)))).2.1 =
      [((-1000 : ℤ), (0 : ℤ))] := by
  have hprn : satB1.prn = 1 := rfl
  have hcpc : satB1.codePhaseChips = 0 := rfl
  have hphi : satB1.carrierPhaseRad = Real.pi := rfl
  have hdopB1 : gpsDop satB1 (0 + 1 / (3150840000 : ℚ)) = 0 := by
    simp [gpsDop, satB1, ephemerisDefault]
  have hcm2 : gpsCm1 1
      (insertCode 1 (gpsInitCodeState 1)
        (insertCode 1 (gpsInitCodeState 1) (fun _ => none))) =
      insertCode 1 (gpsInitCodeState 1)
        (insertCode 1 (gpsInitCodeState 1) (fun _ => none)) := by
    simp [gpsCm1, insertCode]
  have happ2 : insertCode 1 (gpsInitCodeState 1)
      (insertCode 1 (gpsInitCodeState 1) (fun _ => none)) 1 =
      some (gpsInitCodeState 1) := by
    simp [insertCode]
  simp only [gpsProcessOneSat, hprn, hcpc, hphi, hcm2, happ2, Option.getD_some,
    hdopB1, satTimes_one_second, loop_eval_C]
  norm_num [bufferAdd, clamp16]

theorem chunk_eval_1 :
    gpsGenerateChunk providerB 1 0 =
      Except.ok ([((-1000 : ℤ), (0 : ℤ))], providerB1) := by
  have hmixB : mixApplied providerB.frequencyOffsetHz = false := by
    show mixApplied 0 = false
    norm_num [mixApplied]
  rw [gpsGenerateChunk_no_mix providerB 1 0 rfl hmixB]
  have hsats : providerB.sats = [satA] := rfl
  have hfs : providerB.samplingRateHz = (3150840000 : ℚ) := rfl
  have hcs : providerB.codeStates = (fun _ => none) := rfl
  have hrep : List.replicate 1 ((0 : ℤ), (0 : ℤ)) = [((0 : ℤ), (0 : ℤ))] := rfl
  have hact : satA.isActive = true := rfl
  rw [hsats, hfs, hcs, hrep]
  simp only [gpsProcessSats, hact, if_true, one_eval_first]
  rfl

theorem chunk_eval_2 :
    chunkSamples (gpsGenerateChunk providerB1 1 (0 + 1 / (3150840000 : ℚ))) =
      [((-1000 : ℤ), (0 : ℤ))] := by
  have hmixB1 : mixApplied providerB1.frequencyOffsetHz = false := by
    show mixApplied 0 = false
    norm_num [mixApplied]
  rw [gpsGenerateChunk_no_mix providerB1 1 (0 + 1 / (3150840000 : ℚ)) rfl hmixB1]
  simp only [chunkSamples]
  have hsats : providerB1.sats = [satB1] := rfl
  have hfs : providerB1.samplingRateHz = (3150840000 : ℚ) := rfl
  have hcs : providerB1.codeStates =
      insertCode 1 (gpsInitCodeState 1)
        (insertCode 1 (gpsInitCodeState 1) (fun _ => none)) := rfl
  have hrep : List.replicate 1 ((0 : ℤ), (0 : ℤ)) = [((0 : ℤ), (0 : ℤ))] := rfl
  have hact : satB1.isActive = true := rfl
  rw [hsats, hfs, hcs, hrep]
  simp only [gpsProcessSats, hact, if_true, one_eval_second_buf]

theorem chunk_eval_3 :
    chunkSamples (gpsGenerateChunk providerB (1 + 1) 0) =
      [((-1000 : ℤ), (0 : ℤ)), ((1000 : ℤ), (0 : ℤ))] := by
  have hmixB : mixApplied providerB.frequencyOffsetHz = false := by
    show mixApplied 0 = false
    norm_num [mixApplied]
  rw [gpsGenerateChunk_no_mix providerB (1 + 1) 0 rfl hmixB]
  simp only [chunkSamples]
  have hsats : providerB.sats = [satA] := rfl
  have hfs : providerB.samplingRateHz = (3150840000 : ℚ) := rfl
  have hcs : providerB.codeStates = (fun _ => none) := rfl
  have hrep : List.replicate (1 + 1) ((0 : ℤ), (0 : ℤ)) =
      [((0 : ℤ), (0 : ℤ)), ((0 : ℤ), (0 : ℤ))] := rfl
  have hact : satA.isActive = true := rfl
  rw [hsats, hfs, hcs, hrep]
  simp only [gpsProcessSats, hact, if_true]
  exact one_eval_double_buf

/-- C2 (counterexample): sampling at twice the carrier frequency, a
single 2-sample chunk differs from two chained 1-sample chunks, because
the end-of-chunk phase update double-counts the chunk duration. -/
theorem gps_chunk_concat_counterexample :
    chunkSamples (gpsGenerateChunk providerB 1 0) ++
      chunkSamples (gpsGenerateChunk
        (chunkNext providerB (gpsGenerateChunk providerB 1 0)) 1
        (0 + 1 / providerB.samplingRateHz)) ≠
      chunkSamples (gpsGenerateChunk providerB (1 + 1) 0) := by
  have hfs : providerB.samplingRateHz = (3150840000 : ℚ) := rfl
  rw [hfs, chunk_eval_1]
  have hnext : chunkNext providerB
      (Except.ok ([((-1000 : ℤ), (0 : ℤ))], providerB1)) = providerB1 := rfl
  have hcs1 : chunkSamples
      (Except.ok ([((-1000 : ℤ), (0 : ℤ))], providerB1)) =
      [((-1000 : ℤ), (0 : ℤ))] := rfl
  rw [hnext, hcs1, chunk_eval_2, chunk_eval_3]
  decide

/-- C2 (witness): the amended theorem applied to a concrete ready
provider sampled at exactly the carrier frequency, with n = 1, k = 1. -/
theorem gps_chunk_concat_witness :
    chunkSamples (gpsGenerateChunk providerA 1 0) ++
      chunkSamples (gpsGenerateChunk
        (chunkNext providerA (gpsGenerateChunk providerA 1 0)) 1
        (0 + (1 : ℚ) / providerA.samplingRateHz)) =
      chunkSamples (gpsGenerateChunk providerA (1 + 1) 0) :=
  gps_chunk_concat providerA satA 1 0 1 rfl rfl rfl
    (by show mixApplied 0 = false; norm_num [mixApplied])
    rfl (le_refl 0)
    (by show (0 : ℝ) < 2 * Real.pi; positivity)
    (by show ((GPS_CARRIER_FREQ : ℝ) + satA.dopplerHz) * ((1 : ℕ) : ℝ) /
        ((providerA.samplingRateHz : ℚ) : ℝ) = ((1 : ℕ) : ℝ)
        have hd : satA.dopplerHz = 0 := rfl
        have hf : providerA.samplingRateHz = GPS_CARRIER_FREQ := rfl
        rw [hd, hf]
        push_cast
        norm_num [GPS_CARRIER_FREQ])


end QuadGNSS
